import Mathlib

/-!
Verification development for the compiler-visible object walker
(`CompilerVisibleObjectVisitor`): the object-graph walker that decomposes
type-graph nodes and dynamic Python objects into structural records used to
build stable compiler cache digests.

The embedding models C++ `std::string` as `List Char`, pointers that may be
null as `Option`, the CPython object graph as a mutual inductive `PyObj`,
and the five-channel visitor template as a `Visitor` structure threaded
through an explicit state type.  External collaborators (the type-system
internals enumerator, the compiler-visible-globals enumerator, and the
`sys.modules` registry) are parameters bundled in `Ext`.
-/

namespace ObjWalker

/-- C++ `std::string`, as a list of characters (byte-level fidelity is not
needed: all names involved are ASCII). -/
abbrev Str := List Char

/-- The fixed allow-list of canonical module names (standard library modules
plus commonly installed third-party packages), transcribed from the
`canonicalPythonModuleNames` static set. -/
def canonicalPythonModuleNames : List Str :=
  [ "abc".data, "aifc".data, "antigravity".data, "argparse".data, "ast".data,
    "asynchat".data, "asyncio".data, "asyncore".data,
    "base64".data, "bdb".data, "binhex".data, "bisect".data, "_bootlocale".data,
    "bz2".data, "calendar".data, "cgi".data, "cgitb".data,
    "chunk".data, "cmd".data, "codecs".data, "codeop".data, "code".data,
    "collections".data, "_collections_abc".data,
    "colorsys".data, "_compat_pickle".data, "compileall".data, "_compression".data,
    "concurrent".data,
    "configparser".data, "contextlib".data, "contextvars".data, "copy".data,
    "copyreg".data, "cProfile".data, "crypt".data,
    "csv".data, "ctypes".data, "curses".data, "dataclasses".data, "datetime".data,
    "dbm".data, "decimal".data, "difflib".data,
    "dis".data, "distutils".data, "doctest".data, "dummy_threading".data,
    "_dummy_thread".data, "email".data,
    "encodings".data, "ensurepip".data, "enum".data, "filecmp".data,
    "fileinput".data, "fnmatch".data, "formatter".data,
    "fractions".data, "ftplib".data, "functools".data, "__future__".data,
    "genericpath".data, "getopt".data, "getpass".data,
    "gettext".data, "glob".data, "gzip".data, "hashlib".data, "heapq".data,
    "hmac".data, "html".data, "http".data, "idlelib".data,
    "imaplib".data, "imghdr".data, "importlib".data, "imp".data, "inspect".data,
    "io".data, "ipaddress".data, "json".data,
    "keyword".data, "lib2to3".data, "linecache".data, "locale".data,
    "logging".data, "lzma".data, "mailbox".data, "mailcap".data,
    "marshal".data,
    "_markupbase".data, "mimetypes".data, "modulefinder".data, "msilib".data,
    "multiprocessing".data, "netrc".data,
    "nntplib".data, "ntpath".data, "nturl2path".data, "numbers".data,
    "opcode".data, "operator".data, "optparse".data, "os".data,
    "_osx_support".data, "pathlib".data, "pdb".data, "pickle".data,
    "pickletools".data, "pipes".data, "pkgutil".data,
    "platform".data, "plistlib".data, "poplib".data, "posixpath".data,
    "pprint".data, "profile".data, "pstats".data, "pty".data,
    "_py_abc".data, "pyclbr".data, "py_compile".data, "_pydecimal".data,
    "pydoc_data".data, "pydoc".data, "_pyio".data,
    "queue".data, "quopri".data, "random".data, "reprlib".data, "re".data,
    "rlcompleter".data, "runpy".data, "sched".data,
    "secrets".data, "selectors".data, "shelve".data, "shlex".data,
    "shutil".data, "signal".data, "_sitebuiltins".data,
    "site-packages".data, "site".data, "smtpd".data, "smtplib".data,
    "sndhdr".data, "socket".data, "socketserver".data,
    "sqlite3".data, "sre_compile".data, "sre_constants".data, "sre_parse".data,
    "ssl".data, "statistics".data, "stat".data,
    "stringprep".data, "string".data, "_strptime".data, "struct".data,
    "subprocess".data, "sunau".data, "symbol".data,
    "symtable".data, "sysconfig".data, "tabnanny".data, "tarfile".data,
    "telnetlib".data, "tempfile".data, "test".data,
    "textwrap".data, "this".data, "_threading_local".data, "threading".data,
    "timeit".data, "tkinter".data, "tokenize".data,
    "token".data, "traceback".data, "tracemalloc".data, "trace".data,
    "tty".data, "turtledemo".data, "turtle".data, "types".data,
    "typing".data, "unittest".data, "urllib".data, "uuid".data, "uu".data,
    "venv".data, "warnings".data, "wave".data, "weakref".data,
    "_weakrefset".data, "webbrowser".data, "wsgiref".data, "xdrlib".data,
    "xml".data, "xmlrpc".data, "zipapp".data,
    "zipfile".data, "zipimport".data, "pytz".data, "psutil".data,
    "numpy".data, "pandas".data, "scipy".data, "pytest".data, "_pytest".data,
    "typed_python".data, "object_database".data, "llvmlite".data,
    "requests".data, "redis".data, "websockets".data, "boto3".data, "py".data,
    "xdist".data, "pytest_jsonreport".data,
    "pytest_metadata".data, "flask".data, "flaky".data, "coverage".data,
    "pyasn1".data, "cryptography".data, "paramiko".data,
    "six".data, "torch".data ]

/-- `name.find(".")` followed by `substr(0, posOfDot)`: the module-name root
before the first dot (the whole name when no dot is present). -/
def moduleNameRoot (name : Str) : Str :=
  name.takeWhile (fun c => c != '.')

/-- `isCanonicalName`: is the root of this dotted module name in the fixed
allow-list of canonical modules? -/
def isCanonicalName (name : Str) : Bool :=
  canonicalPythonModuleNames.contains (moduleNameRoot name)

/-- The fixed allow-list of magic method names that are NOT ignorable
(`canonicalMagicMethods`), transcribed verbatim from the source, including
its duplicated `__round__` entry (harmless for set membership). -/
def canonicalMagicMethods : List Str :=
  [ "__abs__".data, "__add__".data, "__and__".data, "__bool__".data,
    "__bytes__".data, "__call__".data, "__contains__".data, "__del__".data,
    "__delattr__".data, "__eq__".data, "__float__".data, "__floordiv__".data,
    "__format__".data, "__ge__".data, "__getitem__".data, "__gt__".data,
    "__hash__".data, "__iadd__".data, "__iand__".data, "__ieq__".data,
    "__ifloordiv__".data, "__ige__".data, "__igt__".data, "__ile__".data,
    "__ilshift__".data, "__ilt__".data, "__imatmul__".data, "__imod__".data,
    "__imul__".data, "__index__".data, "__ine__".data, "__init__".data,
    "__int__".data, "__invert__".data, "__ior__".data, "__ipow__".data,
    "__irshift__".data, "__isub__".data, "__itruediv__".data, "__ixor__".data,
    "__le__".data, "__len__".data, "__lshift__".data, "__lt__".data,
    "__matmul__".data, "__mod__".data, "__mul__".data, "__ne__".data,
    "__neg__".data, "__not__".data, "__or__".data, "__pos__".data,
    "__pow__".data, "__radd__".data, "__rand__".data, "__repr__".data,
    "__rfloordiv__".data, "__rlshift__".data, "__rmatmul__".data, "__rmod__".data,
    "__rmul__".data, "__ror__".data, "__round__".data, "__round__".data,
    "__rpow__".data, "__rrshift__".data, "__rshift__".data, "__rsub__".data,
    "__rtruediv__".data, "__rxor__".data, "__setattr__".data, "__setitem__".data,
    "__str__".data, "__sub__".data, "__truediv__".data, "__xor__".data ]

/-- `isSpecialIgnorableName`: a dunder-wrapped name not on the magic-method
allow-list.  Mirrors
`name.substr(0, 2) == "__" && name.substr(name.size() - 2) == "__" && ...`.
In C++, `substr(name.size() - 2)` would be out of range for names shorter
than two characters, but `&&` short-circuits before it is evaluated there;
Lean's total `List.drop` (with clamping subtraction) agrees with the C++
value at every input on which C++ evaluates it. -/
def isSpecialIgnorableName (name : Str) : Bool :=
  name.take 2 == "__".data
    && name.drop (name.length - 2) == "__".data
    && !(canonicalMagicMethods.contains name)

/-- The accumulator primitive (`ShaHash`): an external collaborator.  The
walker only ever forms hashes from small integers (`ShaHash(int)`) or from
raw byte contents (`ShaHash::SHA1(data, len)`); we model both as free
constructors, i.e. the ideal injective digest. -/
inductive ShaHash where
  | ofInt (n : Int)
  | sha1Of (bytes : Str)
deriving DecidableEq

/-- A node of the internal type graph (`Type*`).  Its internals are
enumerated by an external collaborator (`visitCompilerVisibleInternals`),
so the node itself is opaque here: just an identity. -/
structure TPType where
  tid : Nat
deriving DecidableEq

mutual

/-- A dynamic Python object (`PyObject*`), limited to the shapes the walker
dispatches on.  Reference identity is modelled by structural identity.
Floating-point constants are omitted (not representable faithfully; they are
terminal simple constants just like the integer constants modelled here). -/
inductive PyObj where
  | pyNone
  | pyTrue
  | pyFalse
  | pyInt (n : Int)
  | pyBytes (bs : Str)
  | pyStr (s : Str)
  | pyBuiltinsModule
  | pyBuiltinsModuleDict
  | pyBuiltinTypeObj (tn : Str)
  | pyDescrInstance (tn : Str)
  | pyEnviron
  | pyTPInstance (t : TPType)
  | pyTPTypeObj (t : TPType)
  | pyModule (mattrs : PyAttrs)
  | pyCode (argcount kwonlyargcount nlocals stacksize flags firstlineno : Int)
      (codeBytes : Str)
      (consts cnames varnames freevars cellvars : OptPy)
      (coName : PyObj) (linetable : PyObj) (filename : Str)
  | pyFunc (closure : OptPy) (fname : PyObj) (fcode : PyObj)
      (annotations defaults kwdefaults : OptPy)
      (globals : OptPy) (fattrs : PyAttrs)
  | pyClass (cattrs : PyAttrs) (tpDict : OptPy) (tpBases : OptPy)
  | pyStaticMethod (funcAttr : OptPy)
  | pyClassMethod (funcAttr : OptPy)
  | pyTuple (items : PyObjs)
  | pyDict (entries : PyPairs)
  | pySet
  | pyListObj
  | pyWeakSet
  | pyWeakKeyDict
  | pyWeakValueDict
  | pyCell (contents : OptPy)
  | pyMethodDescr (dtype : PyObj) (dname : PyObj)
  | pyCFunction (cfattrs : PyAttrs)
  | pyArbitrary (obTy : PyObj) (aattrs : PyAttrs)
deriving DecidableEq

/-- A possibly-null `PyObject*`. -/
inductive OptPy where
  | none
  | some (o : PyObj)
deriving DecidableEq

/-- A sequence of objects (tuple contents). -/
inductive PyObjs where
  | nil
  | cons (h : PyObj) (t : PyObjs)
deriving DecidableEq

/-- Dictionary entries: key/value pairs in insertion order. -/
inductive PyPairs where
  | nil
  | cons (k : PyObj) (v : PyObj) (t : PyPairs)
deriving DecidableEq

/-- String-keyed attribute table (module / class / instance attributes). -/
inductive PyAttrs where
  | nil
  | cons (nm : Str) (v : PyObj) (t : PyAttrs)
deriving DecidableEq

end

def OptPy.toOption : OptPy → Option PyObj
  | .none => Option.none
  | .some o => Option.some o

def OptPy.ofOption : Option PyObj → OptPy
  | Option.none => .none
  | Option.some o => .some o

def PyObjs.toList : PyObjs → List PyObj
  | .nil => []
  | .cons h t => h :: t.toList

def PyObjs.ofList : List PyObj → PyObjs
  | [] => .nil
  | h :: t => .cons h (PyObjs.ofList t)

def PyPairs.toList : PyPairs → List (PyObj × PyObj)
  | .nil => []
  | .cons k v t => (k, v) :: t.toList

def PyPairs.ofList : List (PyObj × PyObj) → PyPairs
  | [] => .nil
  | (k, v) :: t => .cons k v (PyPairs.ofList t)

def PyAttrs.toList : PyAttrs → List (Str × PyObj)
  | .nil => []
  | .cons nm v t => (nm, v) :: t.toList

def PyAttrs.ofList : List (Str × PyObj) → PyAttrs
  | [] => .nil
  | (nm, v) :: t => .cons nm v (PyAttrs.ofList t)

/-- `TypeOrPyobj`: a graph node, either a type-graph node or a dynamic
object. -/
inductive TypeOrPyobj where
  | ofType (t : TPType)
  | ofPy (o : PyObj)
deriving DecidableEq

/-- `VisitRecord`: one tagged entry of a structural record, mirroring the
C++ `VisitRecord` variant (kinds Hash / String / Topo / NameValuePair /
Error) and its value-wise `operator==`. -/
inductive VisitRecord where
  | hash (h : ShaHash)
  | name (nm : Str)
  | topo (t : TypeOrPyobj)
  | namedTopo (nm : Str) (t : TypeOrPyobj)
  | err (msg : Str)
deriving DecidableEq

/-- `PyObject_GetAttrString` lookup on a string-keyed attribute table:
first match wins; `Option.none` models a failed attribute access (the C
API would set a pending exception, which every caller here clears). -/
def attrLookup : List (Str × PyObj) → Str → Option PyObj
  | [], _ => Option.none
  | (nm, v) :: rest, key => if nm = key then Option.some v else attrLookup rest key

/-- `PyObject_GetAttrString` over the object shapes that expose attributes
in this model.  Static/class method wrappers expose exactly `__func__`
(used by the walker to unwrap them). -/
def getAttrString (o : PyObj) (key : Str) : Option PyObj :=
  match o with
  | .pyModule mattrs => attrLookup mattrs.toList key
  | .pyClass cattrs _ _ => attrLookup cattrs.toList key
  | .pyFunc _ _ _ _ _ _ _ fattrs => attrLookup fattrs.toList key
  | .pyCFunction cfattrs => attrLookup cfattrs.toList key
  | .pyArbitrary _ aattrs => attrLookup aattrs.toList key
  | .pyStaticMethod f => if key = "__func__".data then f.toOption else Option.none
  | .pyClassMethod f => if key = "__func__".data then f.toOption else Option.none
  | _ => Option.none

/-- The live module registry `sys.modules`, an external collaborator:
maps module names to module objects. -/
abbrev Registry := List (Str × PyObj)

/-- `PyObject_GetItem(sysModuleModules, name)`: registry lookup;
`Option.none` models a failed lookup (pending error cleared by callers). -/
def regGetItem : Registry → Str → Option PyObj
  | [], _ => Option.none
  | (nm, m) :: rest, key => if nm = key then Option.some m else regGetItem rest key

/-- `PyDict_GetItem` with a string key: dictionaries compare keys by value,
so the lookup key collected during iteration retrieves the entry whose key
is the equal string. -/
def dictGetItemStr : List (PyObj × PyObj) → Str → Option PyObj
  | [], _ => Option.none
  | (k, v) :: rest, nm => if k = PyObj.pyStr nm then Option.some v else dictGetItemStr rest nm

/-- `PyTuple_Size`: length for tuples, `-1` for any other object (the C API
signals an error this way; callers here never test for it, they just fold
the value in). -/
def pyTupleSizeC : PyObj → Int
  | .pyTuple items => (items.toList.length : Int)
  | _ => -1

/-- The elements a `PyTuple_GetItem` loop bounded by `PyTuple_Size` yields:
the items for a tuple, nothing for any other object (the loop bound is
negative there). -/
def tupleItems : PyObj → List PyObj
  | .pyTuple items => items.toList
  | _ => []

/-- `PyDict_Check`. -/
def isDictObj : PyObj → Bool
  | .pyDict _ => true
  | _ => false

/-- `PyTuple_Check`. -/
def isTupleObj : PyObj → Bool
  | .pyTuple _ => true
  | _ => false

/-- `PyCell_Check`. -/
def isCellObj : PyObj → Bool
  | .pyCell _ => true
  | _ => false

/-- `PyModule_Check`. -/
def isModuleObj : PyObj → Bool
  | .pyModule _ => true
  | _ => false

/-- `h->ob_type == &PyCFunction_Type`. -/
def isCFunctionObj : PyObj → Bool
  | .pyCFunction _ => true
  | _ => false

/-- `obj->ob_type == environType` (the `os._Environ` singleton type). -/
def isEnvironObj : PyObj → Bool
  | .pyEnviron => true
  | _ => false

/-- `PyInstance::extractTypeFrom(obj->ob_type)`: the wrapped type-graph
type when the object is an instance of a typed-python type. -/
def extractTypeFromObType : PyObj → Option TPType
  | .pyTPInstance t => Option.some t
  | _ => Option.none

/-- `PyType_Check(obj) && PyInstance::extractTypeFrom((PyTypeObject*)obj)`:
the wrapped type-graph type when the object is itself the live type object
wrapping a typed-python type. -/
def extractTypeFromTypeObj : PyObj → Option TPType
  | .pyTPTypeObj t => Option.some t
  | _ => Option.none

/-- `obj->ob_type`, for the shapes on which the walker reads it (mutable
containers and the structural fallback). -/
def obType : PyObj → PyObj
  | .pyDict _ => .pyBuiltinTypeObj "dict".data
  | .pySet => .pyBuiltinTypeObj "set".data
  | .pyListObj => .pyBuiltinTypeObj "list".data
  | .pyWeakSet => .pyBuiltinTypeObj "WeakSet".data
  | .pyWeakKeyDict => .pyBuiltinTypeObj "WeakKeyDictionary".data
  | .pyWeakValueDict => .pyBuiltinTypeObj "WeakValueDictionary".data
  | .pyModule _ => .pyBuiltinTypeObj "module".data
  | .pyCFunction _ => .pyBuiltinTypeObj "builtin_function_or_method".data
  | .pyArbitrary obTy _ => obTy
  | _ => .pyBuiltinTypeObj "object".data

/-- `ob_type->tp_name`, best effort, used only in diagnostic strings. -/
def obTypeName (o : PyObj) : Str :=
  match obType o with
  | .pyBuiltinTypeObj tn => tn
  | _ => "object".data

/-- `isSimpleConstant`: basic constants and the fixed allow-list of
built-in type objects, the builtins module and its dict, and instances of
the built-in descriptor/proxy types — all terminal for the walker. -/
def isSimpleConstant : PyObj → Bool
  | .pyNone => true
  | .pyTrue => true
  | .pyFalse => true
  | .pyInt _ => true
  | .pyBytes _ => true
  | .pyStr _ => true
  | .pyBuiltinsModule => true
  | .pyBuiltinsModuleDict => true
  | .pyBuiltinTypeObj _ => true
  | .pyDescrInstance _ => true
  | _ => false

/-- `PyUnicode_Check`. -/
def isUnicodeObj : PyObj → Bool
  | .pyStr _ => true
  | _ => false

/-- `PyUnicode_AsUTF8` (callers only apply it after `PyUnicode_Check`, so
the non-string value is irrelevant). -/
def unicodeAsUTF8 : PyObj → Str
  | .pyStr s => s
  | _ => []

/-- `isPyObjectGloballyIdentifiable`: the node exposes `__module__` and
`__name__`, both are strings, and looking the pair up through `sys.modules`
round-trips to the identical node.  Every failure along the way (missing
attribute, non-string attribute, failed registry lookup, failed attribute
lookup on the module, non-identical result) yields `false`; the C code
clears the pending exception in each failing branch and never propagates it,
which in this total model is simply that the function returns `false`. -/
def isPyObjectGloballyIdentifiable (reg : Registry) (h : PyObj) : Bool :=
  if (getAttrString h "__module__".data).isSome
      && (getAttrString h "__name__".data).isSome then
    match getAttrString h "__module__".data with
    | Option.none => false
    | Option.some moduleName =>
      match getAttrString h "__name__".data with
      | Option.none => false
      | Option.some clsName =>
        if !isUnicodeObj moduleName || !isUnicodeObj clsName then false
        else
          match regGetItem reg (unicodeAsUTF8 moduleName) with
          | Option.none => false
          | Option.some moduleObject =>
            match getAttrString moduleObject (unicodeAsUTF8 clsName) with
            | Option.none => false
            | Option.some obj => decide (obj = h)
  else false

/-- `isPyObjectGloballyIdentifiableAndStable`: globally identifiable, and
additionally the module name is canonical or the node is a built-in
C-function object.  The attribute re-reads are unchecked in the source
(guarded by the identifiability test). -/
def isPyObjectGloballyIdentifiableAndStable (reg : Registry) (h : PyObj) : Bool :=
  if isPyObjectGloballyIdentifiable reg h then
    match getAttrString h "__module__".data, getAttrString h "__name__".data with
    | Option.some moduleName, Option.some _ =>
        isCanonicalName (unicodeAsUTF8 moduleName) || isCFunctionObj h
    | _, _ => false
  else false

/-- The canonical-module short-circuit test (walk lines: `PyModule_Check`,
fetch `__name__`, check it resolves to this very module in `sys.modules`,
and that the name is canonical); yields the module name exactly when the
walker's rule 5 fires.  Any failed step falls through (`Option.none`). -/
def canonicalModuleName (reg : Registry) (o : PyObj) : Option Str :=
  if isModuleObj o then
    match getAttrString o "__name__".data with
    | Option.some nmObj =>
      if isUnicodeObj nmObj then
        match regGetItem reg (unicodeAsUTF8 nmObj) with
        | Option.some moduleObject =>
          if moduleObject = o then
            if isCanonicalName (unicodeAsUTF8 nmObj) then Option.some (unicodeAsUTF8 nmObj)
            else Option.none
          else Option.none
        | Option.none => Option.none
      else Option.none
    | Option.none => Option.none
  else Option.none

/-- The five-channel visitor interface of the walk template: hash
contribution, opaque name, node reference, named node reference, and error.
State of type `σ` is threaded explicitly (the C++ visitors are effectful
closures). -/
structure Visitor (σ : Type) where
  visitHash : σ → ShaHash → σ
  visitName : σ → Str → σ
  visitTopo : σ → TypeOrPyobj → σ
  visitNamedTopo : σ → Str → TypeOrPyobj → σ
  visitErr : σ → Str → σ

/-- Replay one structural-record entry through a visitor: the dictionary
between record entries and visitor-callback invocations. -/
def applyEntry {σ : Type} (v : Visitor σ) (s : σ) : VisitRecord → σ
  | .hash h => v.visitHash s h
  | .name nm => v.visitName s nm
  | .topo t => v.visitTopo s t
  | .namedTopo nm t => v.visitNamedTopo s nm t
  | .err msg => v.visitErr s msg

/-- The record-capturing visitor used by `recordWalk`: each callback pushes
the corresponding `VisitRecord` onto the list. -/
def recordVisitor : Visitor (List VisitRecord) where
  visitHash := fun s h => s ++ [.hash h]
  visitName := fun s nm => s ++ [.name nm]
  visitTopo := fun s t => s ++ [.topo t]
  visitNamedTopo := fun s nm t => s ++ [.namedTopo nm t]
  visitErr := fun s msg => s ++ [.err msg]

/-- External collaborators of the walk, bundled: the type-system internals
enumerator (`visitCompilerVisibleInternals`, presented as the record it
would stream), the compiler-visible-globals enumerator
(`Function::Overload::visitCompilerVisibleGlobals`, as the (name, value)
pairs it yields for a code object and a globals dict), and the live module
registry `sys.modules`. -/
structure Ext where
  typeInternals : TPType → List VisitRecord
  cvGlobals : PyObj → PyObj → List (Str × PyObj)
  reg : Registry

/-- The names surviving the string-key collection of the `visitDict`
helper: string keys only, dropping special ignorable names when
`ignoreSpecialNames` is requested. -/
def survivingNames (entries : List (PyObj × PyObj)) (ignoreSpecialNames : Bool) : List Str :=
  entries.filterMap fun kv =>
    match kv.1 with
    | .pyStr nm =>
        if ignoreSpecialNames && isSpecialIgnorableName nm then Option.none
        else Option.some nm
    | _ => Option.none

/-- The iteration order of the `std::map<std::string, PyObject*> names`
built by `visitDict`: the surviving names, deduplicated and in ascending
lexical order. -/
def sortedSurvivingNames (entries : List (PyObj × PyObj)) (ignoreSpecialNames : Bool) : List Str :=
  List.insertionSort (fun a b => a ≤ b) (survivingNames entries ignoreSpecialNames).dedup

/-- The single entry `visitDict` emits for one surviving name: the named
sub-reference, or the `"dict getitem empty"` error when the lookup fails. -/
def dictEntryRecord (entries : List (PyObj × PyObj)) (nm : Str) : VisitRecord :=
  match dictGetItemStr entries nm with
  | Option.none => .err "dict getitem empty".data
  | Option.some val => .namedTopo nm (.ofPy val)

/-- The `visitDict` helper lambda of the walk: null folds a zero; a
non-dict records an error; a dict folds the count of surviving string keys
and then visits each surviving entry in sorted name order. -/
def visitDictV {σ : Type} (v : Visitor σ) (d : Option PyObj) (ignoreSpecialNames : Bool)
    (s : σ) : σ :=
  match d with
  | Option.none => v.visitHash s (.ofInt 0)
  | Option.some o =>
    match o with
    | .pyDict entries =>
      let names := sortedSurvivingNames entries.toList ignoreSpecialNames
      names.foldl
        (fun s' nm => applyEntry v s' (dictEntryRecord entries.toList nm))
        (v.visitHash s (.ofInt names.length))
    | _ => v.visitErr s ("not a dict: ".data ++ obTypeName o)

/-- The `visitTuple` helper lambda of the walk: null folds a zero;
otherwise fold the `PyTuple_Size` (−1 for non-tuples) and reference each
element in order. -/
def visitTupleV {σ : Type} (v : Visitor σ) (t : Option PyObj) (s : σ) : σ :=
  match t with
  | Option.none => v.visitHash s (.ofInt 0)
  | Option.some o =>
    (tupleItems o).foldl (fun s' i => v.visitTopo s' (.ofPy i))
      (v.visitHash s (.ofInt (pyTupleSizeC o)))

/-- The `visitDictOrTuple` helper lambda of the walk: null folds a zero;
dicts and tuples are decomposed by the corresponding helper; anything else
records an error. -/
def visitDictOrTupleV {σ : Type} (v : Visitor σ) (t : Option PyObj) (s : σ) : σ :=
  match t with
  | Option.none => v.visitHash s (.ofInt 0)
  | Option.some o =>
    if isDictObj o then visitDictV v (Option.some o) false s
    else if isTupleObj o then visitTupleV v (Option.some o) s
    else v.visitErr s "not a dict or tuple".data

/-- The code-object rule's five name/constant tables, in walk order:
`co_consts`, `co_names`, `co_varnames`, `co_freevars`, `co_cellvars`. -/
def codeTables (consts cnames varnames freevars cellvars : OptPy) : List (Option PyObj) :=
  [consts.toOption, cnames.toOption, varnames.toOption, freevars.toOption, cellvars.toOption]

/-- The code-object rule (discriminant 4): fold argument count,
keyword-only argument count, local slot count, stack size and first line
number (the `co_flags` field is deliberately skipped), hash the raw
instruction bytes, reference-walk the five tables, then reference the bare
name and the line-number table (the `co_filename` field is deliberately
skipped). -/
def walkCodeV {σ : Type} (v : Visitor σ)
    (argcount kwonlyargcount nlocals stacksize : Int) (firstlineno : Int)
    (codeBytes : Str) (consts cnames varnames freevars cellvars : OptPy)
    (coName linetable : PyObj) (s : σ) : σ :=
  let s := v.visitHash s (.ofInt 4)
  let s := v.visitHash s (.ofInt argcount)
  let s := v.visitHash s (.ofInt kwonlyargcount)
  let s := v.visitHash s (.ofInt nlocals)
  let s := v.visitHash s (.ofInt stacksize)
  let s := v.visitHash s (.ofInt firstlineno)
  let s := v.visitHash s (.sha1Of codeBytes)
  let s := (codeTables consts cnames varnames freevars cellvars).foldl
    (fun s' t => visitTupleV v t s') s
  let s := v.visitTopo s (.ofPy coName)
  v.visitTopo s (.ofPy linetable)

/-- The closure portion of the function rule: a non-null closure folds the
full tuple length and references only the items that are cells; a null
closure folds a zero marker. -/
def walkClosureV {σ : Type} (v : Visitor σ) (closure : OptPy) (s : σ) : σ :=
  match closure with
  | .none => v.visitHash s (.ofInt 0)
  | .some clo =>
    (tupleItems clo).foldl
      (fun s' c => if isCellObj c then v.visitTopo s' (.ofPy c) else s')
      (v.visitHash s (.ofInt (pyTupleSizeC clo)))

/-- The globals portion of the function rule: when the function has a
dict-shaped globals namespace, visit each (name, value) pair yielded by the
compiler-visible-globals enumerator whose name is not special-ignorable, as
a named sub-reference. -/
def walkGlobalsV {σ : Type} (ext : Ext) (v : Visitor σ) (fcode : PyObj) (globals : OptPy)
    (s : σ) : σ :=
  match globals with
  | .some g =>
    if isDictObj g then
      (ext.cvGlobals fcode g).foldl
        (fun s' p =>
          if !isSpecialIgnorableName p.1 then v.visitNamedTopo s' p.1 (.ofPy p.2) else s')
        s
    else s
  | .none => s

/-- The function rule (discriminant 5): closure, name, code object,
annotations (`visitDictOrTuple`), positional defaults (`visitTuple`),
keyword-only defaults (`visitDictOrTuple`), a one marker, the
compiler-visible globals, and a zero marker. -/
def walkFuncV {σ : Type} (ext : Ext) (v : Visitor σ)
    (closure : OptPy) (fname fcode : PyObj)
    (annotations defaults kwdefaults : OptPy) (globals : OptPy) (s : σ) : σ :=
  let s := v.visitHash s (.ofInt 5)
  let s := walkClosureV v closure s
  let s := v.visitTopo s (.ofPy fname)
  let s := v.visitTopo s (.ofPy fcode)
  let s := visitDictOrTupleV v annotations.toOption s
  let s := visitTupleV v defaults.toOption s
  let s := visitDictOrTupleV v kwdefaults.toOption s
  let s := v.visitHash s (.ofInt 1)
  let s := walkGlobalsV ext v fcode globals s
  v.visitHash s (.ofInt 0)

/-- The class rule (discriminant 6): the member dictionary (with
special-name filtering) sandwiched between zero markers, then the base
classes referenced in order, then a final zero marker. -/
def walkClassV {σ : Type} (v : Visitor σ) (tpDict tpBases : OptPy) (s : σ) : σ :=
  let s := v.visitHash s (.ofInt 6)
  let s := v.visitHash s (.ofInt 0)
  let s := match tpDict with
    | .none => s
    | .some d => visitDictV v (Option.some d) true s
  let s := v.visitHash s (.ofInt 0)
  let s := match tpBases with
    | .none => s
    | .some b => (tupleItems b).foldl (fun s' t => v.visitTopo s' (.ofPy t)) s
  v.visitHash s (.ofInt 0)

/-- The static/class method wrapper rule (discriminants 7 and 8): unwrap
`__func__` and reference it, recording an error when unwrapping fails. -/
def walkMethodWrapperV {σ : Type} (v : Visitor σ) (disc : Int) (o : PyObj) (s : σ) : σ :=
  let s := v.visitHash s (.ofInt disc)
  match getAttrString o "__func__".data with
  | Option.none => v.visitErr s "not a func obj".data
  | Option.some funcObj => v.visitTopo s (.ofPy funcObj)

/-- The opaque name `moduleName + "|" + clsName` emitted by the
globally-addressable-and-stable rule (the rule re-reads `__module__` and
`__name__`, unchecked in the C code because the identifiability test just
established they are strings). -/
def stableQualifiedName (o : PyObj) : Option Str :=
  match getAttrString o "__module__".data, getAttrString o "__name__".data with
  | Option.some moduleName, Option.some clsName =>
    Option.some (unicodeAsUTF8 moduleName ++ "|".data ++ unicodeAsUTF8 clsName)
  | _, _ => Option.none

/-- The closure-cell rule (discriminant 11): a presence marker and a
reference to the held value, or an absence marker for an empty cell. -/
def walkCellV {σ : Type} (v : Visitor σ) (contents : OptPy) (s : σ) : σ :=
  match contents with
  | .some c =>
    v.visitTopo (v.visitHash (v.visitHash s (.ofInt 11)) (.ofInt 1)) (.ofPy c)
  | .none => v.visitHash (v.visitHash s (.ofInt 11)) (.ofInt 0)

/-- The dynamic-object dispatch of `walk`, first match wins, mirroring the
source cascade: environment singleton; simple constants; instance of a
typed-python type; canonical module; globally addressable and stable node;
live type object wrapping a typed-python type; code object; function;
class; static/class method wrapper; tuple; mutable containers; closure
cell; method descriptor; structural fallback to the runtime type. -/
def walkPyV {σ : Type} (ext : Ext) (v : Visitor σ) (o : PyObj) (s : σ) : σ :=
  if isEnvironObj o then v.visitHash s (.ofInt 13)
  else if isSimpleConstant o then s
  else match extractTypeFromObType o with
  | Option.some argType => v.visitTopo (v.visitHash s (.ofInt 2)) (.ofType argType)
  | Option.none =>
    match canonicalModuleName ext.reg o with
    | Option.some moduleName => v.visitName (v.visitHash s (.ofInt 12)) moduleName
    | Option.none =>
      if isPyObjectGloballyIdentifiableAndStable ext.reg o then
        match stableQualifiedName o with
        | Option.some qn => v.visitName (v.visitHash s (.ofInt 2)) qn
        | Option.none => s
      else
        match extractTypeFromTypeObj o with
        | Option.some argType => v.visitTopo (v.visitHash s (.ofInt 3)) (.ofType argType)
        | Option.none =>
          match o with
          | .pyCode a k nl stk _ fln bytes c1 c2 c3 c4 c5 nm lt _ =>
            walkCodeV v a k nl stk fln bytes c1 c2 c3 c4 c5 nm lt s
          | .pyFunc clo nm code ann dfl kwd gl _ =>
            walkFuncV ext v clo nm code ann dfl kwd gl s
          | .pyClass _ tpDict tpBases => walkClassV v tpDict tpBases s
          | .pyStaticMethod _ => walkMethodWrapperV v 7 o s
          | .pyClassMethod _ => walkMethodWrapperV v 8 o s
          | .pyTuple items =>
            items.toList.foldl (fun s' i => v.visitTopo s' (.ofPy i))
              (v.visitHash (v.visitHash s (.ofInt 9)) (.ofInt items.toList.length))
          | .pyDict _ => v.visitTopo (v.visitHash s (.ofInt 10)) (.ofPy (obType o))
          | .pySet => v.visitTopo (v.visitHash s (.ofInt 10)) (.ofPy (obType o))
          | .pyListObj => v.visitTopo (v.visitHash s (.ofInt 10)) (.ofPy (obType o))
          | .pyWeakSet => v.visitTopo (v.visitHash s (.ofInt 10)) (.ofPy (obType o))
          | .pyWeakKeyDict => v.visitTopo (v.visitHash s (.ofInt 10)) (.ofPy (obType o))
          | .pyWeakValueDict => v.visitTopo (v.visitHash s (.ofInt 10)) (.ofPy (obType o))
          | .pyCell contents => walkCellV v contents s
          | .pyMethodDescr dtype dname =>
            v.visitTopo (v.visitTopo s (.ofPy dtype)) (.ofPy dname)
          | _ => v.visitTopo s (.ofPy (obType o))

/-- The full walk: a type-graph node emits discriminant 1 and delegates to
the type-system internals enumerator; a dynamic node goes through the
dispatch cascade. -/
def walkV {σ : Type} (ext : Ext) (v : Visitor σ) (obj : TypeOrPyobj) (s : σ) : σ :=
  match obj with
  | .ofType t => (ext.typeInternals t).foldl (applyEntry v) (v.visitHash s (.ofInt 1))
  | .ofPy o => walkPyV ext v o s

/-- `recordWalk`: one walk of the node, captured as a structural record by
instantiating the walk with the record-pushing visitor. -/
def recordWalk (ext : Ext) (obj : TypeOrPyobj) : List VisitRecord :=
  walkV ext recordVisitor obj []

/-! ### Explicit record forms of the walk helpers

For each helper of the walk we give the structural-record sequence it
streams, and prove (`*_sim` lemmas below) that instantiating the helper at
ANY visitor is exactly the fold of that sequence through the visitor's
channels.  `recordWalk` itself stays defined as the walk instantiated at
the record-pushing visitor, as in the source. -/

/-- Record sequence of the `visitTuple` helper. -/
def visitTupleRecords (t : Option PyObj) : List VisitRecord :=
  match t with
  | Option.none => [.hash (.ofInt 0)]
  | Option.some o =>
    .hash (.ofInt (pyTupleSizeC o)) :: (tupleItems o).map (fun i => .topo (.ofPy i))

/-- Record sequence of the `visitDict` helper. -/
def visitDictRecords (d : Option PyObj) (ignoreSpecialNames : Bool) : List VisitRecord :=
  match d with
  | Option.none => [.hash (.ofInt 0)]
  | Option.some o =>
    match o with
    | .pyDict entries =>
      .hash (.ofInt (sortedSurvivingNames entries.toList ignoreSpecialNames).length)
        :: (sortedSurvivingNames entries.toList ignoreSpecialNames).map
            (dictEntryRecord entries.toList)
    | _ => [.err ("not a dict: ".data ++ obTypeName o)]

/-- Record sequence of the `visitDictOrTuple` helper. -/
def visitDictOrTupleRecords (t : Option PyObj) : List VisitRecord :=
  match t with
  | Option.none => [.hash (.ofInt 0)]
  | Option.some o =>
    if isDictObj o then visitDictRecords (Option.some o) false
    else if isTupleObj o then visitTupleRecords (Option.some o)
    else [.err "not a dict or tuple".data]

/-- Record sequence of the closure portion of the function rule: the full
tuple length is folded, but only the cell items are referenced. -/
def closureRecords (closure : OptPy) : List VisitRecord :=
  match closure with
  | .none => [.hash (.ofInt 0)]
  | .some clo =>
    .hash (.ofInt (pyTupleSizeC clo))
      :: ((tupleItems clo).filter isCellObj).map (fun c => .topo (.ofPy c))

/-- Record sequence of the globals portion of the function rule. -/
def globalsRecords (ext : Ext) (fcode : PyObj) (globals : OptPy) : List VisitRecord :=
  match globals with
  | .some g =>
    if isDictObj g then
      ((ext.cvGlobals fcode g).filter (fun p => !isSpecialIgnorableName p.1)).map
        (fun p => .namedTopo p.1 (.ofPy p.2))
    else []
  | .none => []

/-! ### Walk cache and stability verifier -/

/-- `mPastVisits`: the walk cache, mapping node identity to its
first-observed structural record.  The C++ `unordered_map` is modelled as
an association list looked up by node equality. -/
abbrev VisitCache := List (TypeOrPyobj × List VisitRecord)

/-- Lookup in the walk cache (`mPastVisits.find(obj)`). -/
def cacheFind : VisitCache → TypeOrPyobj → Option (List VisitRecord)
  | [], _ => Option.none
  | (k, r) :: rest, obj => if k = obj then Option.some r else cacheFind rest obj

/-- The fatal diagnostic built by `checkForInstability`.  The C++ message
enumerates up to 1000 unstable nodes with a side-by-side line diff of old
versus new record; the claims under verification concern only whether the
error is raised, so the rendered text is abbreviated here (it still names
how many nodes were found via the list it is built from). -/
def instabilityMessage (unstable : List TypeOrPyobj) : Str :=
  "Found unstable objects: ".data ++ (List.replicate unstable.length 'x')

/-- `checkForInstability`: re-walk every cached node, collect those whose
fresh record differs from the stored one, raise a fatal error enumerating
them when any exist, and return normally otherwise. -/
def checkForInstability (ext : Ext) (cache : VisitCache) : Except Str Unit :=
  let unstable := (cache.filter fun p => !decide (p.2 = recordWalk ext p.1)).map (·.1)
  if unstable.isEmpty then Except.ok ()
  else Except.error (instabilityMessage unstable)

/-- `visit`: compute the node's current structural record; an unseen node
is stored and then streamed; a seen node's fresh record is compared with
the stored one by value equality, and on mismatch the full verifier is
invoked — its error propagates, and should it find nothing, `visit` still
fails with the internal-consistency error.  The streamed walk is returned
as its captured record (which, the walk being one set of rules for every
visitor, determines the calls made on any caller-supplied visitor). -/
def visit (ext : Ext) (cache : VisitCache) (obj : TypeOrPyobj) :
    Except Str (VisitCache × List VisitRecord) :=
  let records := recordWalk ext obj
  match cacheFind cache obj with
  | Option.none => Except.ok ((obj, records) :: cache, recordWalk ext obj)
  | Option.some stored =>
    if stored = records then Except.ok (cache, recordWalk ext obj)
    else
      match checkForInstability ext cache with
      | Except.error e => Except.error e
      | Except.ok _ =>
        Except.error
          "Found unstable object, but somehow our instability check did not throw an exception?".data

/-- `resetCache`: clears all memoized records. -/
def resetCache (_cache : VisitCache) : VisitCache := []

/-! ### Rule classification (for the discriminant-distinctness claim) -/

/-- The dispatch rules of the walk, in source order. -/
inductive WalkRule where
  | typeGraphNode
  | environObject
  | simpleConstantLeaf
  | tpInstanceObject
  | canonicalModuleObject
  | globallyStableObject
  | tpTypeObject
  | codeObject
  | functionObject
  | classObject
  | staticMethodObject
  | classMethodObject
  | tupleObject
  | mutableContainerObject
  | cellObject
  | methodDescrObject
  | fallbackObject
deriving DecidableEq, Fintype

/-- Which dispatch rule fires for a node: a transcription of the walk's
cascade conditions, in the same first-match-wins order. -/
def classify (reg : Registry) (obj : TypeOrPyobj) : WalkRule :=
  match obj with
  | .ofType _ => .typeGraphNode
  | .ofPy o =>
    if isEnvironObj o then .environObject
    else if isSimpleConstant o then .simpleConstantLeaf
    else if (extractTypeFromObType o).isSome then .tpInstanceObject
    else if (canonicalModuleName reg o).isSome then .canonicalModuleObject
    else if isPyObjectGloballyIdentifiableAndStable reg o then .globallyStableObject
    else if (extractTypeFromTypeObj o).isSome then .tpTypeObject
    else
      match o with
      | .pyCode _ _ _ _ _ _ _ _ _ _ _ _ _ _ _ => .codeObject
      | .pyFunc _ _ _ _ _ _ _ _ => .functionObject
      | .pyClass _ _ _ => .classObject
      | .pyStaticMethod _ => .staticMethodObject
      | .pyClassMethod _ => .classMethodObject
      | .pyTuple _ => .tupleObject
      | .pyDict _ => .mutableContainerObject
      | .pySet => .mutableContainerObject
      | .pyListObj => .mutableContainerObject
      | .pyWeakSet => .mutableContainerObject
      | .pyWeakKeyDict => .mutableContainerObject
      | .pyWeakValueDict => .mutableContainerObject
      | .pyCell _ => .cellObject
      | .pyMethodDescr _ _ => .methodDescrObject
      | _ => .fallbackObject

/-- The leading discriminant constant each rule emits (`Option.none` for
the rules that emit no leading hash: simple constants, method descriptors
and the structural fallback), read off the walk's `visitHash` calls. -/
def ruleDiscriminant : WalkRule → Option Int
  | .typeGraphNode => Option.some 1
  | .environObject => Option.some 13
  | .simpleConstantLeaf => Option.none
  | .tpInstanceObject => Option.some 2
  | .canonicalModuleObject => Option.some 12
  | .globallyStableObject => Option.some 2
  | .tpTypeObject => Option.some 3
  | .codeObject => Option.some 4
  | .functionObject => Option.some 5
  | .classObject => Option.some 6
  | .staticMethodObject => Option.some 7
  | .classMethodObject => Option.some 8
  | .tupleObject => Option.some 9
  | .mutableContainerObject => Option.some 10
  | .cellObject => Option.some 11
  | .methodDescrObject => Option.none
  | .fallbackObject => Option.none

/-- A concrete built-in C-function object that round-trips through the
sample registry below as `os.getcwd`: globally addressable and stable. -/
def sampleStableCFunction : PyObj :=
  .pyCFunction (PyAttrs.ofList
    [("__module__".data, .pyStr "os".data), ("__name__".data, .pyStr "getcwd".data)])

/-- A sample `os` module object exposing `getcwd`. -/
def sampleOsModule : PyObj :=
  .pyModule (PyAttrs.ofList [("getcwd".data, sampleStableCFunction)])

/-- A sample registry in which `os` resolves to the sample module. -/
def sampleOsRegistry : Registry := [("os".data, sampleOsModule)]

/-! ### Vocabulary for the remaining claims -/

/-- All string keys of a dictionary, in insertion order, unfiltered. -/
def stringKeys (entries : List (PyObj × PyObj)) : List Str :=
  entries.filterMap fun kv =>
    match kv.1 with
    | .pyStr nm => Option.some nm
    | _ => Option.none

/-- The globally-addressable round trip succeeds: the node exposes string
`__module__` and `__name__` attributes, the module registry resolves the
module name, and fetching the local name on that module yields the
identical node. -/
def roundTripResolves (reg : Registry) (h : PyObj) : Prop :=
  ∃ ms cs M,
    getAttrString h "__module__".data = Option.some (.pyStr ms)
      ∧ getAttrString h "__name__".data = Option.some (.pyStr cs)
      ∧ regGetItem reg ms = Option.some M
      ∧ getAttrString M cs = Option.some h

/-- Trivial external collaborators for concrete evaluations: an empty
type-internals enumeration, no compiler-visible globals, empty registry. -/
def extNull : Ext where
  typeInternals := fun _ => []
  cvGlobals := fun _ _ => []
  reg := []

/-- External collaborators with a given registry and trivial enumerators. -/
def extWithReg (reg : Registry) : Ext where
  typeInternals := fun _ => []
  cvGlobals := fun _ _ => []
  reg := reg

theorem pyObjsToListOfList (l : List PyObj) : (PyObjs.ofList l).toList = l := by
  induction l with
  | nil => rfl
  | cons h t ih => simp [PyObjs.ofList, PyObjs.toList, ih]

theorem pyPairsToListOfList (l : List (PyObj × PyObj)) :
    (PyPairs.ofList l).toList = l := by
  induction l with
  | nil => rfl
  | cons h t ih => cases h; simp [PyPairs.ofList, PyPairs.toList, ih]

theorem pyAttrsToListOfList (l : List (Str × PyObj)) :
    (PyAttrs.ofList l).toList = l := by
  induction l with
  | nil => rfl
  | cons h t ih => cases h; simp [PyAttrs.ofList, PyAttrs.toList, ih]

/-- Record sequence of the class rule's member-dictionary portion. -/
def classDictRecords (tpDict : OptPy) : List VisitRecord :=
  match tpDict with
  | OptPy.none => []
  | OptPy.some d => visitDictRecords (Option.some d) true

/-- Record sequence of the class rule's base-classes portion. -/
def classBasesRecords (tpBases : OptPy) : List VisitRecord :=
  match tpBases with
  | OptPy.none => []
  | OptPy.some b => (tupleItems b).map (fun t => VisitRecord.topo (.ofPy t))

/-- Record sequence of the closure-cell rule. -/
def cellRecords (contents : OptPy) : List VisitRecord :=
  match contents with
  | OptPy.some c =>
    [VisitRecord.hash (.ofInt 11), VisitRecord.hash (.ofInt 1),
      VisitRecord.topo (.ofPy c)]
  | OptPy.none => [VisitRecord.hash (.ofInt 11), VisitRecord.hash (.ofInt 0)]

/-- Record sequence of the static/class-method unwrap portion. -/
def methodWrapperTail (f : OptPy) : List VisitRecord :=
  match f with
  | OptPy.none => [VisitRecord.err "not a func obj".data]
  | OptPy.some fo => [VisitRecord.topo (.ofPy fo)]

theorem recordVisitor_visitHash (s : List VisitRecord) (h : ShaHash) :
    recordVisitor.visitHash s h = s ++ [.hash h] := rfl

theorem recordVisitor_visitName (s : List VisitRecord) (nm : Str) :
    recordVisitor.visitName s nm = s ++ [.name nm] := rfl

theorem recordVisitor_visitTopo (s : List VisitRecord) (t : TypeOrPyobj) :
    recordVisitor.visitTopo s t = s ++ [.topo t] := rfl

theorem recordVisitor_visitNamedTopo (s : List VisitRecord) (nm : Str) (t : TypeOrPyobj) :
    recordVisitor.visitNamedTopo s nm t = s ++ [.namedTopo nm t] := rfl

theorem recordVisitor_visitErr (s : List VisitRecord) (msg : Str) :
    recordVisitor.visitErr s msg = s ++ [.err msg] := rfl

theorem applyEntry_recordVisitor (s : List VisitRecord) (e : VisitRecord) :
    applyEntry recordVisitor s e = s ++ [e] := by
  cases e <;> rfl

theorem foldl_applyEntry_recordVisitor (R : List VisitRecord) (s : List VisitRecord) :
    R.foldl (applyEntry recordVisitor) s = s ++ R := by
  induction R generalizing s with
  | nil => simp
  | cons e R ih => simp [applyEntry_recordVisitor, ih]

theorem foldl_apply_filter_map {σ α : Type} (v : Visitor σ) (p : α → Bool)
    (f : α → VisitRecord) (l : List α) (s : σ) :
    l.foldl (fun s' a => if p a then applyEntry v s' (f a) else s') s
      = ((l.filter p).map f).foldl (applyEntry v) s := by
  induction l generalizing s with
  | nil => rfl
  | cons a l ih =>
    by_cases h : p a <;> simp [h, ih]

theorem visitTupleV_sim {σ : Type} (v : Visitor σ) (t : Option PyObj) (s : σ) :
    visitTupleV v t s = (visitTupleRecords t).foldl (applyEntry v) s := by
  cases t with
  | none => rfl
  | some o => simp [visitTupleV, visitTupleRecords, List.foldl_map, applyEntry]

theorem visitDictV_sim {σ : Type} (v : Visitor σ) (d : Option PyObj) (ig : Bool) (s : σ) :
    visitDictV v d ig s = (visitDictRecords d ig).foldl (applyEntry v) s := by
  cases d with
  | none => rfl
  | some o =>
    cases o <;>
      simp [visitDictV, visitDictRecords, List.foldl_map, applyEntry]

theorem visitDictOrTupleV_sim {σ : Type} (v : Visitor σ) (t : Option PyObj) (s : σ) :
    visitDictOrTupleV v t s = (visitDictOrTupleRecords t).foldl (applyEntry v) s := by
  cases t with
  | none => rfl
  | some o =>
    by_cases hd : isDictObj o <;> by_cases ht : isTupleObj o <;>
      simp [visitDictOrTupleV, visitDictOrTupleRecords, hd, ht,
        visitDictV_sim, visitTupleV_sim, applyEntry]

theorem walkClosureV_sim {σ : Type} (v : Visitor σ) (closure : OptPy) (s : σ) :
    walkClosureV v closure s = (closureRecords closure).foldl (applyEntry v) s := by
  cases closure with
  | none => rfl
  | some clo =>
    have h := foldl_apply_filter_map v isCellObj
      (fun c => VisitRecord.topo (.ofPy c)) (tupleItems clo)
      (v.visitHash s (.ofInt (pyTupleSizeC clo)))
    simp only [applyEntry] at h
    simpa [walkClosureV, closureRecords, applyEntry] using h

theorem walkGlobalsV_sim {σ : Type} (ext : Ext) (v : Visitor σ) (fcode : PyObj)
    (globals : OptPy) (s : σ) :
    walkGlobalsV ext v fcode globals s
      = (globalsRecords ext fcode globals).foldl (applyEntry v) s := by
  cases globals with
  | none => rfl
  | some g =>
    by_cases hd : isDictObj g
    · have h := foldl_apply_filter_map v (fun p : Str × PyObj => !isSpecialIgnorableName p.1)
        (fun p => VisitRecord.namedTopo p.1 (.ofPy p.2)) (ext.cvGlobals fcode g) s
      simp only [applyEntry] at h
      simpa [walkGlobalsV, globalsRecords, hd] using h
    · simp [walkGlobalsV, globalsRecords, hd]

theorem walkCodeV_sim {σ : Type} (v : Visitor σ)
    (a k nl stk fln : Int) (bytes : Str) (c1 c2 c3 c4 c5 : OptPy)
    (nm lt : PyObj) (s : σ) :
    walkCodeV v a k nl stk fln bytes c1 c2 c3 c4 c5 nm lt s
      = ([VisitRecord.hash (.ofInt 4), .hash (.ofInt a), .hash (.ofInt k),
          .hash (.ofInt nl), .hash (.ofInt stk), .hash (.ofInt fln),
          .hash (.sha1Of bytes)]
          ++ visitTupleRecords c1.toOption ++ visitTupleRecords c2.toOption
          ++ visitTupleRecords c3.toOption ++ visitTupleRecords c4.toOption
          ++ visitTupleRecords c5.toOption
          ++ [VisitRecord.topo (.ofPy nm), VisitRecord.topo (.ofPy lt)]).foldl
          (applyEntry v) s := by
  simp [walkCodeV, codeTables, visitTupleV_sim, List.foldl_append, applyEntry]

theorem walkFuncV_sim {σ : Type} (ext : Ext) (v : Visitor σ)
    (clo : OptPy) (nm code : PyObj) (ann dfl kwd gl : OptPy) (s : σ) :
    walkFuncV ext v clo nm code ann dfl kwd gl s
      = (VisitRecord.hash (.ofInt 5)
          :: (closureRecords clo
            ++ [.topo (.ofPy nm), .topo (.ofPy code)]
            ++ visitDictOrTupleRecords ann.toOption
            ++ visitTupleRecords dfl.toOption
            ++ visitDictOrTupleRecords kwd.toOption
            ++ [.hash (.ofInt 1)]
            ++ globalsRecords ext code gl
            ++ [.hash (.ofInt 0)])).foldl (applyEntry v) s := by
  simp [walkFuncV, walkClosureV_sim, walkGlobalsV_sim, visitDictOrTupleV_sim,
    visitTupleV_sim, List.foldl_append, applyEntry]

theorem walkClassV_sim {σ : Type} (v : Visitor σ) (tpDict tpBases : OptPy) (s : σ) :
    walkClassV v tpDict tpBases s
      = (VisitRecord.hash (.ofInt 6) :: VisitRecord.hash (.ofInt 0)
          :: ((match tpDict with
              | OptPy.none => []
              | OptPy.some d => visitDictRecords (Option.some d) true)
            ++ [VisitRecord.hash (.ofInt 0)]
            ++ (match tpBases with
              | OptPy.none => []
              | OptPy.some b => (tupleItems b).map (fun t => VisitRecord.topo (.ofPy t)))
            ++ [VisitRecord.hash (.ofInt 0)])).foldl (applyEntry v) s := by
  cases tpDict <;> cases tpBases <;>
    simp [walkClassV, visitDictV_sim, List.foldl_append, List.foldl_map, applyEntry]

theorem walkCellV_sim {σ : Type} (v : Visitor σ) (contents : OptPy) (s : σ) :
    walkCellV v contents s
      = ((match contents with
          | OptPy.some c =>
              [VisitRecord.hash (.ofInt 11), VisitRecord.hash (.ofInt 1),
                VisitRecord.topo (.ofPy c)]
          | OptPy.none =>
              [VisitRecord.hash (.ofInt 11), VisitRecord.hash (.ofInt 0)])).foldl
          (applyEntry v) s := by
  cases contents <;> simp [walkCellV, applyEntry]

theorem walkMethodWrapperV_sim {σ : Type} (v : Visitor σ) (disc : Int) (o : PyObj) (s : σ) :
    walkMethodWrapperV v disc o s
      = (VisitRecord.hash (.ofInt disc)
          :: (match getAttrString o "__func__".data with
            | Option.none => [VisitRecord.err "not a func obj".data]
            | Option.some funcObj => [VisitRecord.topo (.ofPy funcObj)])).foldl
          (applyEntry v) s := by
  cases h : getAttrString o "__func__".data <;>
    simp [walkMethodWrapperV, h, applyEntry]

theorem foldl_topo_sim {σ : Type} (v : Visitor σ) (l : List PyObj) (s : σ) :
    l.foldl (fun s' i => v.visitTopo s' (.ofPy i)) s
      = (l.map (fun i => VisitRecord.topo (.ofPy i))).foldl (applyEntry v) s := by
  simp [List.foldl_map, applyEntry]

theorem foldl_push_map {α : Type} (l : List α) (f : α → VisitRecord)
    (init : List VisitRecord) :
    l.foldl (fun acc a => acc ++ [f a]) init = init ++ l.map f := by
  induction l generalizing init with
  | nil => simp
  | cons a l ih => simp [ih]

theorem walkPyV_sim {σ : Type} (ext : Ext) (v : Visitor σ) (o : PyObj) (s : σ) :
    walkPyV ext v o s = (walkPyV ext recordVisitor o []).foldl (applyEntry v) s := by
  unfold walkPyV
  by_cases h1 : isEnvironObj o
  · simp [h1, applyEntry, recordVisitor_visitHash]
  · by_cases h2 : isSimpleConstant o
    · simp [h1, h2]
    · cases h3 : extractTypeFromObType o with
      | some t =>
        simp [h1, h2, h3, applyEntry, recordVisitor_visitHash, recordVisitor_visitTopo]
      | none =>
        cases h4 : canonicalModuleName ext.reg o with
        | some mn =>
          simp [h1, h2, h3, h4, applyEntry, recordVisitor_visitHash, recordVisitor_visitName]
        | none =>
          by_cases h5 : isPyObjectGloballyIdentifiableAndStable ext.reg o
          · cases h6 : stableQualifiedName o <;>
              simp [h1, h2, h3, h4, h5, h6, applyEntry,
                recordVisitor_visitHash, recordVisitor_visitName]
          · cases h7 : extractTypeFromTypeObj o with
            | some t =>
              simp [h1, h2, h3, h4, h5, h7, applyEntry,
                recordVisitor_visitHash, recordVisitor_visitTopo]
            | none =>
              cases o <;>
                simp [h1, h2, h3, h4, h5, h7, applyEntry,
                  recordVisitor_visitHash, recordVisitor_visitName, recordVisitor_visitTopo,
                  recordVisitor_visitNamedTopo, recordVisitor_visitErr,
                  walkCodeV_sim, walkFuncV_sim, walkClassV_sim, walkMethodWrapperV_sim,
                  walkCellV_sim, foldl_topo_sim, foldl_push_map,
                  foldl_applyEntry_recordVisitor, List.foldl_append]

/-- C8: streaming a node's structure to ANY visitor produces, channel for
channel and argument for argument, exactly the entry sequence captured by
`recordWalk` for the same node: the walk instantiated at a visitor equals
the fold of the captured record through that visitor.  Both sides are the
same walk rules (`walkV`), exactly as in the source where both are
instantiations of the single `walk` template. -/
theorem walk_streams_recorded_sequence {σ : Type} (ext : Ext) (v : Visitor σ)
    (obj : TypeOrPyobj) (s : σ) :
    walkV ext v obj s = (recordWalk ext obj).foldl (applyEntry v) s := by
  cases obj with
  | ofType t =>
    simp [walkV, recordWalk, foldl_applyEntry_recordVisitor, List.foldl_append,
      applyEntry, recordVisitor_visitHash]
  | ofPy o =>
    simpa [walkV, recordWalk] using walkPyV_sim ext v o s

/-! ### Per-branch record equations (shared lemmas) -/

theorem recordWalk_typeGraph (ext : Ext) (t : TPType) :
    recordWalk ext (.ofType t) = .hash (.ofInt 1) :: ext.typeInternals t := by
  simp [recordWalk, walkV, foldl_applyEntry_recordVisitor, recordVisitor_visitHash]

theorem recordWalk_environ (ext : Ext) :
    recordWalk ext (.ofPy .pyEnviron) = [.hash (.ofInt 13)] := rfl

theorem recordWalk_simpleConstant (ext : Ext) (o : PyObj)
    (h : isSimpleConstant o = true) (henv : isEnvironObj o = false) :
    recordWalk ext (.ofPy o) = [] := by
  simp [recordWalk, walkV, walkPyV, h, henv]

theorem recordWalk_tpInstance (ext : Ext) (t : TPType) :
    recordWalk ext (.ofPy (.pyTPInstance t))
      = [.hash (.ofInt 2), .topo (.ofType t)] := rfl

theorem recordWalk_tpTypeObj (ext : Ext) (t : TPType) :
    recordWalk ext (.ofPy (.pyTPTypeObj t))
      = [.hash (.ofInt 3), .topo (.ofType t)] := rfl

theorem recordWalk_module_canonical (ext : Ext) (mattrs : PyAttrs) (nm : Str)
    (hc : canonicalModuleName ext.reg (.pyModule mattrs) = Option.some nm) :
    recordWalk ext (.ofPy (.pyModule mattrs)) = [.hash (.ofInt 12), .name nm] := by
  simp [recordWalk, walkV, walkPyV, isEnvironObj, isSimpleConstant,
    extractTypeFromObType, hc, recordVisitor_visitHash, recordVisitor_visitName]

theorem stable_qualified (reg : Registry) (h : PyObj)
    (hs : isPyObjectGloballyIdentifiableAndStable reg h = true) :
    ∃ qn, stableQualifiedName h = Option.some qn := by
  unfold isPyObjectGloballyIdentifiableAndStable at hs
  split at hs
  · split at hs
    · rename_i moduleName clsName hm hn
      exact ⟨unicodeAsUTF8 moduleName ++ "|".data ++ unicodeAsUTF8 clsName,
        by simp [stableQualifiedName, hm, hn]⟩
    · exact absurd hs (by simp)
  · exact absurd hs (by simp)

theorem recordWalk_stable (ext : Ext) (o : PyObj) (qn : Str)
    (henv : isEnvironObj o = false) (hsc : isSimpleConstant o = false)
    (hext : extractTypeFromObType o = Option.none)
    (hcm : canonicalModuleName ext.reg o = Option.none)
    (hs : isPyObjectGloballyIdentifiableAndStable ext.reg o = true)
    (hq : stableQualifiedName o = Option.some qn) :
    recordWalk ext (.ofPy o) = [.hash (.ofInt 2), .name qn] := by
  simp [recordWalk, walkV, walkPyV, henv, hsc, hext, hcm, hs, hq,
    recordVisitor_visitHash, recordVisitor_visitName]

theorem recordWalk_code (ext : Ext)
    (a k nl stk fl fln : Int) (bytes : Str) (c1 c2 c3 c4 c5 : OptPy)
    (nm lt : PyObj) (fn : Str) :
    recordWalk ext (.ofPy (.pyCode a k nl stk fl fln bytes c1 c2 c3 c4 c5 nm lt fn))
      = [VisitRecord.hash (.ofInt 4), .hash (.ofInt a), .hash (.ofInt k),
          .hash (.ofInt nl), .hash (.ofInt stk), .hash (.ofInt fln),
          .hash (.sha1Of bytes)]
        ++ visitTupleRecords c1.toOption ++ visitTupleRecords c2.toOption
        ++ visitTupleRecords c3.toOption ++ visitTupleRecords c4.toOption
        ++ visitTupleRecords c5.toOption
        ++ [VisitRecord.topo (.ofPy nm), VisitRecord.topo (.ofPy lt)] := by
  have hsim := walkCodeV_sim recordVisitor a k nl stk fln bytes c1 c2 c3 c4 c5 nm lt
    ([] : List VisitRecord)
  simp only [foldl_applyEntry_recordVisitor, List.nil_append] at hsim
  simpa [recordWalk, walkV, walkPyV, isEnvironObj, isSimpleConstant,
    extractTypeFromObType, extractTypeFromTypeObj, canonicalModuleName, isModuleObj,
    isPyObjectGloballyIdentifiableAndStable, isPyObjectGloballyIdentifiable,
    getAttrString] using hsim

theorem recordWalk_func (ext : Ext) (clo : OptPy) (nm code : PyObj)
    (ann dfl kwd gl : OptPy) (fattrs : PyAttrs)
    (hs : isPyObjectGloballyIdentifiableAndStable ext.reg
      (.pyFunc clo nm code ann dfl kwd gl fattrs) = false) :
    recordWalk ext (.ofPy (.pyFunc clo nm code ann dfl kwd gl fattrs))
      = VisitRecord.hash (.ofInt 5)
        :: (closureRecords clo
          ++ [VisitRecord.topo (.ofPy nm), VisitRecord.topo (.ofPy code)]
          ++ visitDictOrTupleRecords ann.toOption
          ++ visitTupleRecords dfl.toOption
          ++ visitDictOrTupleRecords kwd.toOption
          ++ [VisitRecord.hash (.ofInt 1)]
          ++ globalsRecords ext code gl
          ++ [VisitRecord.hash (.ofInt 0)]) := by
  have hsim := walkFuncV_sim ext recordVisitor clo nm code ann dfl kwd gl
    ([] : List VisitRecord)
  simp only [foldl_applyEntry_recordVisitor, List.nil_append] at hsim
  simpa [recordWalk, walkV, walkPyV, isEnvironObj, isSimpleConstant,
    extractTypeFromObType, extractTypeFromTypeObj, canonicalModuleName, isModuleObj,
    hs] using hsim

theorem recordWalk_class (ext : Ext) (cattrs : PyAttrs) (tpDict tpBases : OptPy)
    (hs : isPyObjectGloballyIdentifiableAndStable ext.reg
      (.pyClass cattrs tpDict tpBases) = false) :
    recordWalk ext (.ofPy (.pyClass cattrs tpDict tpBases))
      = VisitRecord.hash (.ofInt 6) :: VisitRecord.hash (.ofInt 0)
        :: (classDictRecords tpDict
          ++ [VisitRecord.hash (.ofInt 0)]
          ++ classBasesRecords tpBases
          ++ [VisitRecord.hash (.ofInt 0)]) := by
  have hsim := walkClassV_sim recordVisitor tpDict tpBases ([] : List VisitRecord)
  simp only [foldl_applyEntry_recordVisitor, List.nil_append] at hsim
  simpa [recordWalk, walkV, walkPyV, isEnvironObj, isSimpleConstant,
    extractTypeFromObType, extractTypeFromTypeObj, canonicalModuleName, isModuleObj,
    hs, classDictRecords, classBasesRecords] using hsim

theorem recordWalk_staticMethod (ext : Ext) (f : OptPy) :
    recordWalk ext (.ofPy (.pyStaticMethod f))
      = VisitRecord.hash (.ofInt 7) :: methodWrapperTail f := by
  cases f <;> rfl

theorem recordWalk_classMethod (ext : Ext) (f : OptPy) :
    recordWalk ext (.ofPy (.pyClassMethod f))
      = VisitRecord.hash (.ofInt 8) :: methodWrapperTail f := by
  cases f <;> rfl

theorem recordWalk_tuple (ext : Ext) (items : PyObjs) :
    recordWalk ext (.ofPy (.pyTuple items))
      = VisitRecord.hash (.ofInt 9)
        :: VisitRecord.hash (.ofInt (items.toList.length : Int))
        :: items.toList.map (fun i => VisitRecord.topo (.ofPy i)) := by
  simp [recordWalk, walkV, walkPyV, isEnvironObj, isSimpleConstant,
    extractTypeFromObType, extractTypeFromTypeObj, canonicalModuleName, isModuleObj,
    isPyObjectGloballyIdentifiableAndStable, isPyObjectGloballyIdentifiable,
    getAttrString, recordVisitor_visitHash, recordVisitor_visitTopo, foldl_push_map]

theorem recordWalk_cell (ext : Ext) (contents : OptPy) :
    recordWalk ext (.ofPy (.pyCell contents)) = cellRecords contents := by
  cases contents <;> rfl

theorem recordWalk_dict (ext : Ext) (entries : PyPairs) :
    recordWalk ext (.ofPy (.pyDict entries))
      = [.hash (.ofInt 10), .topo (.ofPy (obType (.pyDict entries)))] := rfl

theorem recordWalk_methodDescr (ext : Ext) (dtype dname : PyObj) :
    recordWalk ext (.ofPy (.pyMethodDescr dtype dname))
      = [.topo (.ofPy dtype), .topo (.ofPy dname)] := rfl

theorem recordWalk_code_head (ext : Ext)
    (a k nl stk fl fln : Int) (bytes : Str) (c1 c2 c3 c4 c5 : OptPy)
    (nm lt : PyObj) (fn : Str) :
    (recordWalk ext (.ofPy (.pyCode a k nl stk fl fln bytes c1 c2 c3 c4 c5 nm lt fn))).head?
      = Option.some (VisitRecord.hash (.ofInt 4)) := by
  rw [recordWalk_code]
  rfl

theorem recordWalk_func_head (ext : Ext) (clo : OptPy) (nm code : PyObj)
    (ann dfl kwd gl : OptPy) (fattrs : PyAttrs)
    (hs : isPyObjectGloballyIdentifiableAndStable ext.reg
      (.pyFunc clo nm code ann dfl kwd gl fattrs) = false) :
    (recordWalk ext (.ofPy (.pyFunc clo nm code ann dfl kwd gl fattrs))).head?
      = Option.some (VisitRecord.hash (.ofInt 5)) := by
  rw [recordWalk_func ext clo nm code ann dfl kwd gl fattrs hs]
  rfl

theorem recordWalk_class_head (ext : Ext) (cattrs : PyAttrs) (tpDict tpBases : OptPy)
    (hs : isPyObjectGloballyIdentifiableAndStable ext.reg
      (.pyClass cattrs tpDict tpBases) = false) :
    (recordWalk ext (.ofPy (.pyClass cattrs tpDict tpBases))).head?
      = Option.some (VisitRecord.hash (.ofInt 6)) := by
  rw [recordWalk_class ext cattrs tpDict tpBases hs]
  rfl

theorem recordWalk_staticMethod_head (ext : Ext) (f : OptPy) :
    (recordWalk ext (.ofPy (.pyStaticMethod f))).head?
      = Option.some (VisitRecord.hash (.ofInt 7)) := by
  rw [recordWalk_staticMethod]
  rfl

theorem recordWalk_classMethod_head (ext : Ext) (f : OptPy) :
    (recordWalk ext (.ofPy (.pyClassMethod f))).head?
      = Option.some (VisitRecord.hash (.ofInt 8)) := by
  rw [recordWalk_classMethod]
  rfl

theorem recordWalk_tuple_head (ext : Ext) (items : PyObjs) :
    (recordWalk ext (.ofPy (.pyTuple items))).head?
      = Option.some (VisitRecord.hash (.ofInt 9)) := by
  rw [recordWalk_tuple]
  rfl

theorem recordWalk_cell_head (ext : Ext) (contents : OptPy) :
    (recordWalk ext (.ofPy (.pyCell contents))).head?
      = Option.some (VisitRecord.hash (.ofInt 11)) := by
  rw [recordWalk_cell]
  cases contents <;> rfl

theorem recordWalk_dict_head (ext : Ext) (entries : PyPairs) :
    (recordWalk ext (.ofPy (.pyDict entries))).head?
      = Option.some (VisitRecord.hash (.ofInt 10)) := rfl

theorem recordWalk_set_head (ext : Ext) :
    (recordWalk ext (.ofPy .pySet)).head?
      = Option.some (VisitRecord.hash (.ofInt 10)) := rfl

theorem recordWalk_list_head (ext : Ext) :
    (recordWalk ext (.ofPy .pyListObj)).head?
      = Option.some (VisitRecord.hash (.ofInt 10)) := rfl

theorem recordWalk_weakSet_head (ext : Ext) :
    (recordWalk ext (.ofPy .pyWeakSet)).head?
      = Option.some (VisitRecord.hash (.ofInt 10)) := rfl

theorem recordWalk_weakKeyDict_head (ext : Ext) :
    (recordWalk ext (.ofPy .pyWeakKeyDict)).head?
      = Option.some (VisitRecord.hash (.ofInt 10)) := rfl

theorem recordWalk_weakValueDict_head (ext : Ext) :
    (recordWalk ext (.ofPy .pyWeakValueDict)).head?
      = Option.some (VisitRecord.hash (.ofInt 10)) := rfl

/-! ### Walk cache and stability verifier: lemmas and claims C2, C3 -/

theorem cacheFind_mem {cache : VisitCache} {obj : TypeOrPyobj} {r : List VisitRecord}
    (h : cacheFind cache obj = Option.some r) : (obj, r) ∈ cache := by
  induction cache with
  | nil => simp [cacheFind] at h
  | cons p rest ih =>
    obtain ⟨k, v⟩ := p
    by_cases hk : k = obj
    · subst hk
      simp [cacheFind] at h
      simp [h]
    · simp [cacheFind, hk] at h
      exact List.mem_cons_of_mem _ (ih h)

theorem checkForInstability_error_iff (ext : Ext) (cache : VisitCache) :
    (∃ e, checkForInstability ext cache = Except.error e)
      ↔ ∃ p ∈ cache, p.2 ≠ recordWalk ext p.1 := by
  unfold checkForInstability
  by_cases hemp :
      ((cache.filter fun p => !decide (p.2 = recordWalk ext p.1)).map (·.1)).isEmpty
  · simp only [hemp, if_true]
    constructor
    · rintro ⟨e, he⟩
      exact absurd he (by simp)
    · rintro ⟨p, hp, hne⟩
      exfalso
      rw [List.isEmpty_iff, List.map_eq_nil_iff, List.filter_eq_nil_iff] at hemp
      exact hemp p hp (by simpa using hne)
  · simp only [hemp, if_false]
    constructor
    · rintro ⟨e, _⟩
      rw [List.isEmpty_iff, List.map_eq_nil_iff, List.filter_eq_nil_iff] at hemp
      push_neg at hemp
      obtain ⟨p, hp, hpred⟩ := hemp
      exact ⟨p, hp, by simpa using hpred⟩
    · intro _
      exact ⟨_, rfl⟩

theorem visit_mismatch_fatal (ext : Ext) (cache : VisitCache) (obj : TypeOrPyobj)
    (stored : List VisitRecord)
    (hfind : cacheFind cache obj = Option.some stored)
    (hne : stored ≠ recordWalk ext obj) :
    ∃ e, checkForInstability ext cache = Except.error e
      ∧ visit ext cache obj = Except.error e := by
  have hmem : (obj, stored) ∈ cache := cacheFind_mem hfind
  obtain ⟨e, he⟩ := (checkForInstability_error_iff ext cache).mpr ⟨(obj, stored), hmem, hne⟩
  refine ⟨e, he, ?_⟩
  simp [visit, hfind, hne, he]

/-- C2: when a previously cached node re-walks to a record that differs
from the stored one by value equality, `visit` invokes the full
instability check and raises that check's fatal error; it never returns
normally after detecting the mismatch (and even if the full scan had found
nothing, `visit` would still fail, with the internal-consistency error —
in this deterministic model the scan necessarily finds the mismatching
node itself, so the error raised is the verifier's). -/
theorem visit_on_mismatch_checks_and_raises (ext : Ext) (cache : VisitCache)
    (obj : TypeOrPyobj) (stored : List VisitRecord)
    (hfind : cacheFind cache obj = Option.some stored)
    (hne : stored ≠ recordWalk ext obj) :
    (∀ res, visit ext cache obj ≠ Except.ok res)
      ∧ ∃ e, checkForInstability ext cache = Except.error e
          ∧ visit ext cache obj = Except.error e := by
  obtain ⟨e, hc, hv⟩ := visit_mismatch_fatal ext cache obj stored hfind hne
  refine ⟨?_, e, hc, hv⟩
  intro res hres
  rw [hv] at hres
  exact Except.noConfusion hres

/-- Witness for C2 at a concrete input: the cache stores a stale record
`[Hash 99]` for the `None` singleton (whose true record is empty), and
`visit` fails with the verifier's error. -/
theorem visit_on_mismatch_checks_and_raises_witness :
    cacheFind [((TypeOrPyobj.ofPy .pyNone), [VisitRecord.hash (.ofInt 99)])]
        (.ofPy .pyNone) = Option.some [VisitRecord.hash (.ofInt 99)]
      ∧ [VisitRecord.hash (.ofInt 99)] ≠ recordWalk extNull (.ofPy .pyNone)
      ∧ ((∀ res, visit extNull [((TypeOrPyobj.ofPy .pyNone),
              [VisitRecord.hash (.ofInt 99)])] (.ofPy .pyNone) ≠ Except.ok res)
        ∧ ∃ e, checkForInstability extNull
              [((TypeOrPyobj.ofPy .pyNone), [VisitRecord.hash (.ofInt 99)])]
            = Except.error e
          ∧ visit extNull [((TypeOrPyobj.ofPy .pyNone), [VisitRecord.hash (.ofInt 99)])]
              (.ofPy .pyNone) = Except.error e) := by
  refine ⟨by decide, by decide, ?_⟩
  exact visit_on_mismatch_checks_and_raises extNull
    [((TypeOrPyobj.ofPy .pyNone), [VisitRecord.hash (.ofInt 99)])]
    (.ofPy .pyNone) [VisitRecord.hash (.ofInt 99)] (by decide) (by decide)

/-- C3: `checkForInstability` raises an error exactly when at least one
node in the walk cache re-walks to a record different from its stored
record; when every cached node re-walks identically it returns normally
(raises nothing). -/
theorem checkForInstability_raises_iff_unstable (ext : Ext) (cache : VisitCache) :
    ((∃ e, checkForInstability ext cache = Except.error e)
        ↔ ∃ p ∈ cache, p.2 ≠ recordWalk ext p.1)
      ∧ ((∀ p ∈ cache, p.2 = recordWalk ext p.1)
        → checkForInstability ext cache = Except.ok ()) := by
  refine ⟨checkForInstability_error_iff ext cache, fun hall => ?_⟩
  rcases hres : checkForInstability ext cache with e | u
  · obtain ⟨p, hp, hne⟩ := (checkForInstability_error_iff ext cache).mp ⟨e, hres⟩
    exact absurd (hall p hp) hne
  · rfl

/-- Witness for C3: a cache whose single entry re-walks identically makes
the verifier return normally. -/
theorem checkForInstability_raises_iff_unstable_witness :
    checkForInstability extNull [((TypeOrPyobj.ofPy .pyNone), ([] : List VisitRecord))]
      = Except.ok () :=
  (checkForInstability_raises_iff_unstable extNull
    [((TypeOrPyobj.ofPy .pyNone), ([] : List VisitRecord))]).2 (by decide)

/-! ### The special-name filter: claim C10 -/

theorem take_two_eq_iff (name : Str) :
    name.take 2 = "__".data ↔ 2 ≤ name.length ∧ ∃ rest, name = "__".data ++ rest := by
  constructor
  · intro h
    have hlen : 2 ≤ name.length := by
      have := congrArg List.length h
      simp [List.length_take] at this
      omega
    refine ⟨hlen, name.drop 2, ?_⟩
    conv_lhs => rw [← List.take_append_drop 2 name]
    rw [h]
  · rintro ⟨_, rest, rfl⟩
    have h2 : ("__".data : Str).length = 2 := rfl
    rw [← h2, List.take_left]

theorem drop_suffix_eq_iff (name : Str) :
    name.drop (name.length - 2) = "__".data ↔ ∃ pre, name = pre ++ "__".data := by
  constructor
  · intro h
    refine ⟨name.take (name.length - 2), ?_⟩
    conv_lhs => rw [← List.take_append_drop (name.length - 2) name]
    rw [h]
  · rintro ⟨pre, rfl⟩
    have h2 : ("__".data : Str).length = 2 := rfl
    have hlen : (pre ++ "__".data).length - 2 = pre.length := by
      simp [h2]
    rw [hlen, List.drop_left]

/-- C10: `isSpecialIgnorableName` is total and holds exactly for names of
length at least 2 that begin with `__`, end with `__` (the prefix and
suffix may overlap, so `__` and `___` qualify; the witness checks them),
and are not in the fixed allow-list of magic method names; names shorter
than two characters are never filtered.  Totality is inherent (the C++
out-of-range `substr` is short-circuited away and the Lean model is a
total function). -/
theorem isSpecialIgnorableName_characterization (name : Str) :
    (isSpecialIgnorableName name = true
      ↔ 2 ≤ name.length
        ∧ (∃ rest, name = "__".data ++ rest)
        ∧ (∃ pre, name = pre ++ "__".data)
        ∧ name ∉ canonicalMagicMethods)
    ∧ (name.length < 2 → isSpecialIgnorableName name = false) := by
  have hmain : isSpecialIgnorableName name = true
      ↔ 2 ≤ name.length
        ∧ (∃ rest, name = "__".data ++ rest)
        ∧ (∃ pre, name = pre ++ "__".data)
        ∧ name ∉ canonicalMagicMethods := by
    unfold isSpecialIgnorableName
    simp only [Bool.and_eq_true, beq_iff_eq, Bool.not_eq_true']
    constructor
    · rintro ⟨⟨ht, hd⟩, hc⟩
      obtain ⟨hlen, rest, hrest⟩ := (take_two_eq_iff name).mp ht
      obtain ⟨pre, hpre⟩ := (drop_suffix_eq_iff name).mp hd
      refine ⟨hlen, ⟨rest, hrest⟩, ⟨pre, hpre⟩, ?_⟩
      intro hmem
      simp [hmem] at hc
    · rintro ⟨hlen, ⟨rest, hrest⟩, ⟨pre, hpre⟩, hnm⟩
      refine ⟨⟨(take_two_eq_iff name).mpr ⟨hlen, rest, hrest⟩,
        (drop_suffix_eq_iff name).mpr ⟨pre, hpre⟩⟩, ?_⟩
      simp [hnm]
  refine ⟨hmain, fun hshort => ?_⟩
  rcases hres : isSpecialIgnorableName name with _ | _
  · rfl
  · obtain ⟨hlen, _, _, _⟩ := hmain.mp hres
    omega

/-- Witness for C10: `___` (overlapping prefix and suffix) is filtered, a
one-character name is not. -/
theorem isSpecialIgnorableName_characterization_witness :
    isSpecialIgnorableName "___".data = true
      ∧ isSpecialIgnorableName "x".data = false :=
  ⟨(isSpecialIgnorableName_characterization "___".data).1.mpr
      ⟨by decide, ⟨"_".data, rfl⟩, ⟨"_".data, rfl⟩, by decide⟩,
    (isSpecialIgnorableName_characterization "x".data).2 (by decide)⟩

/-! ### Mapping-order independence: claim C4 -/

theorem survivingNames_eq_filter (entries : List (PyObj × PyObj)) (ig : Bool) :
    survivingNames entries ig
      = (stringKeys entries).filter (fun nm => !(ig && isSpecialIgnorableName nm)) := by
  induction entries with
  | nil => rfl
  | cons kv rest ih =>
    obtain ⟨k, v⟩ := kv
    cases k
    case pyStr s =>
      rcases Bool.eq_false_or_eq_true ig with hig | hig
      all_goals subst hig
      all_goals by_cases hsp : isSpecialIgnorableName s = true
      all_goals simp_all [survivingNames, stringKeys, List.filterMap_cons]
    all_goals
      simp only [survivingNames, stringKeys, List.filterMap_cons] at ih ⊢
      simpa [survivingNames, stringKeys] using ih

theorem stringKeys_tail_nodup {x : PyObj × PyObj} {l : List (PyObj × PyObj)}
    (h : (stringKeys (x :: l)).Nodup) : (stringKeys l).Nodup := by
  obtain ⟨k, v⟩ := x
  cases k <;> simp [stringKeys, List.filterMap_cons] at h <;>
    first
      | exact h
      | exact h.2

theorem dictGetItemStr_perm {d1 d2 : List (PyObj × PyObj)} (hperm : d1.Perm d2) :
    (stringKeys d1).Nodup → ∀ nm, dictGetItemStr d1 nm = dictGetItemStr d2 nm := by
  induction hperm with
  | nil => intro _ nm; rfl
  | cons x h ih =>
    intro hnd nm
    obtain ⟨k, v⟩ := x
    by_cases hk : k = PyObj.pyStr nm
    · simp [dictGetItemStr, hk]
    · simp [dictGetItemStr, hk, ih (stringKeys_tail_nodup hnd) nm]
  | swap x y l =>
    intro hnd nm
    obtain ⟨kx, vx⟩ := x
    obtain ⟨ky, vy⟩ := y
    by_cases hx : kx = PyObj.pyStr nm <;> by_cases hy : ky = PyObj.pyStr nm
    · exfalso
      subst hx
      subst hy
      simp [stringKeys, List.filterMap_cons] at hnd
    · simp [dictGetItemStr, hx, hy]
    · simp [dictGetItemStr, hx, hy]
    · simp [dictGetItemStr, hx, hy]
  | trans h12 h23 ih12 ih23 =>
    intro hnd nm
    have hnd2 : (stringKeys _).Nodup :=
      ((h12.filterMap _).nodup_iff).mp hnd
    exact (ih12 hnd nm).trans (ih23 hnd2 nm)

theorem sortedSurvivingNames_perm {d1 d2 : List (PyObj × PyObj)} (ig : Bool)
    (hperm : d1.Perm d2) (hnd : (stringKeys d1).Nodup) :
    sortedSurvivingNames d1 ig = sortedSurvivingNames d2 ig := by
  have hnd1 : (survivingNames d1 ig).Nodup := by
    rw [survivingNames_eq_filter]
    exact hnd.filter _
  have hnd2 : (survivingNames d2 ig).Nodup := by
    rw [survivingNames_eq_filter]
    exact (((hperm.filterMap _).nodup_iff).mp hnd).filter _
  have hp : (survivingNames d1 ig).Perm (survivingNames d2 ig) := hperm.filterMap _
  unfold sortedSurvivingNames
  rw [List.dedup_eq_self.mpr hnd1, List.dedup_eq_self.mpr hnd2]
  refine List.eq_of_perm_of_sorted
    (((List.perm_insertionSort _ _).trans hp).trans
      (List.perm_insertionSort _ _).symm)
    (List.sorted_insertionSort _ _) (List.sorted_insertionSort _ _)

/-- C4: for every name-to-value mapping walked by the shared dictionary
helper, the record depends only on the set of string-keyed entries, not on
insertion order: the surviving-name count is folded first and the entries
are visited as named sub-references in ascending lexical name order, so a
permutation of the entries of a well-formed dictionary (string keys occur
at most once) yields an identical structural record, for either value of
the special-name filter switch. -/
theorem visitDict_order_independent (ig : Bool) (d1 d2 : List (PyObj × PyObj))
    (hperm : d1.Perm d2) (hnd : (stringKeys d1).Nodup) :
    visitDictRecords (Option.some (.pyDict (PyPairs.ofList d1))) ig
      = visitDictRecords (Option.some (.pyDict (PyPairs.ofList d2))) ig := by
  have hnames := sortedSurvivingNames_perm ig hperm hnd
  have hitem : ∀ nm, dictEntryRecord d1 nm = dictEntryRecord d2 nm := by
    intro nm
    unfold dictEntryRecord
    rw [dictGetItemStr_perm hperm hnd nm]
  simp only [visitDictRecords, pyPairsToListOfList, hnames]
  congr 1
  exact List.map_congr_left fun nm _ => hitem nm

/-- Witness for C4: the same two entries inserted in both orders produce
identical records. -/
theorem visitDict_order_independent_witness :
    ([((PyObj.pyStr "b".data), PyObj.pyInt 1), ((PyObj.pyStr "a".data), PyObj.pyInt 2)].Perm
        [((PyObj.pyStr "a".data), PyObj.pyInt 2), ((PyObj.pyStr "b".data), PyObj.pyInt 1)])
      ∧ (stringKeys [((PyObj.pyStr "b".data), PyObj.pyInt 1),
          ((PyObj.pyStr "a".data), PyObj.pyInt 2)]).Nodup
      ∧ visitDictRecords (Option.some (.pyDict (PyPairs.ofList
            [((PyObj.pyStr "b".data), PyObj.pyInt 1),
              ((PyObj.pyStr "a".data), PyObj.pyInt 2)]))) false
        = visitDictRecords (Option.some (.pyDict (PyPairs.ofList
            [((PyObj.pyStr "a".data), PyObj.pyInt 2),
              ((PyObj.pyStr "b".data), PyObj.pyInt 1)]))) false := by
  refine ⟨by decide, by decide, ?_⟩
  exact visitDict_order_independent false
    [((PyObj.pyStr "b".data), PyObj.pyInt 1), ((PyObj.pyStr "a".data), PyObj.pyInt 2)]
    [((PyObj.pyStr "a".data), PyObj.pyInt 2), ((PyObj.pyStr "b".data), PyObj.pyInt 1)]
    (by decide) (by decide)

/-! ### Discriminant constants: claim C1 -/

/-- C1 counterexample: the instance-of-a-type-graph-type rule and the
globally-addressable-and-stable rule are different rules, yet both emit
leading discriminant hash 2, witnessed by two concrete nodes. -/
theorem discriminant_clash_rule4_rule6 :
    classify sampleOsRegistry (.ofPy (.pyTPInstance ⟨0⟩))
        ≠ classify sampleOsRegistry (.ofPy sampleStableCFunction)
      ∧ (recordWalk (extWithReg sampleOsRegistry) (.ofPy (.pyTPInstance ⟨0⟩))).head?
          = Option.some (VisitRecord.hash (.ofInt 2))
      ∧ (recordWalk (extWithReg sampleOsRegistry) (.ofPy sampleStableCFunction)).head?
          = Option.some (VisitRecord.hash (.ofInt 2)) := by
  refine ⟨by decide, by decide, by decide⟩

/-- C1 amended: each rule of the walk that emits a leading discriminant
emits it as the first entry of the record, and the discriminant constants
of distinct rules are pairwise distinct — with the single exception of the
instance-of-a-type-graph-type rule and the globally-addressable-and-stable
rule, which both emit 2. -/
theorem discriminants_distinct_except_rule4_rule6 :
    (∀ r1 r2 : WalkRule, (ruleDiscriminant r1).isSome
        → ruleDiscriminant r1 = ruleDiscriminant r2 → r1 ≠ r2
        → ((r1 = WalkRule.tpInstanceObject ∧ r2 = WalkRule.globallyStableObject)
          ∨ (r1 = WalkRule.globallyStableObject ∧ r2 = WalkRule.tpInstanceObject)))
      ∧ (∀ (ext : Ext) (obj : TypeOrPyobj) (n : Int),
        ruleDiscriminant (classify ext.reg obj) = Option.some n
        → (recordWalk ext obj).head? = Option.some (VisitRecord.hash (.ofInt n))) := by
  constructor
  · decide
  · intro ext obj n h
    cases obj with
    | ofType t =>
      simp [classify, ruleDiscriminant] at h
      subst h
      simp [recordWalk_typeGraph]
    | ofPy o =>
      by_cases h1 : isEnvironObj o = true
      · simp [classify, h1, ruleDiscriminant] at h
        subst h
        simp [recordWalk, walkV, walkPyV, h1, recordVisitor_visitHash]
      · by_cases h2 : isSimpleConstant o = true
        · simp [classify, h1, h2, ruleDiscriminant] at h
        · cases h3 : extractTypeFromObType o with
          | some t =>
            simp [classify, h1, h2, h3, ruleDiscriminant] at h
            subst h
            simp [recordWalk, walkV, walkPyV, h1, h2, h3,
              recordVisitor_visitHash, recordVisitor_visitTopo]
          | none =>
            cases h4 : canonicalModuleName ext.reg o with
            | some mn =>
              simp [classify, h1, h2, h3, h4, ruleDiscriminant] at h
              subst h
              simp [recordWalk, walkV, walkPyV, h1, h2, h3, h4,
                recordVisitor_visitHash, recordVisitor_visitName]
            | none =>
              by_cases h5 : isPyObjectGloballyIdentifiableAndStable ext.reg o = true
              · simp [classify, h1, h2, h3, h4, h5, ruleDiscriminant] at h
                subst h
                obtain ⟨qn, hq⟩ := stable_qualified ext.reg o h5
                simp [recordWalk, walkV, walkPyV, h1, h2, h3, h4, h5, hq,
                  recordVisitor_visitHash, recordVisitor_visitName]
              · cases h7 : extractTypeFromTypeObj o with
                | some t =>
                  simp [classify, h1, h2, h3, h4, h5, h7, ruleDiscriminant] at h
                  subst h
                  simp [recordWalk, walkV, walkPyV, h1, h2, h3, h4, h5, h7,
                    recordVisitor_visitHash, recordVisitor_visitTopo]
                | none =>
                  cases o <;>
                    simp_all [classify, ruleDiscriminant, isEnvironObj,
                      isSimpleConstant, extractTypeFromObType, extractTypeFromTypeObj,
                      recordWalk_code_head, recordWalk_func_head, recordWalk_class_head,
                      recordWalk_staticMethod_head, recordWalk_classMethod_head,
                      recordWalk_tuple_head, recordWalk_cell_head, recordWalk_dict_head,
                      recordWalk_set_head, recordWalk_list_head, recordWalk_weakSet_head,
                      recordWalk_weakKeyDict_head, recordWalk_weakValueDict_head]

/-- Witness for C1 amended: instantiate the distinctness conjunct at the
code and function rules, and the head-discriminant conjunct at a concrete
tuple node. -/
theorem discriminants_distinct_except_rule4_rule6_witness :
    ((ruleDiscriminant WalkRule.codeObject).isSome
        ∧ ¬(WalkRule.codeObject = WalkRule.functionObject)
        ∧ ruleDiscriminant WalkRule.codeObject ≠ ruleDiscriminant WalkRule.functionObject)
      ∧ ruleDiscriminant (classify extNull.reg (.ofPy (.pyTuple .nil))) = Option.some 9
      ∧ (recordWalk extNull (.ofPy (.pyTuple .nil))).head?
          = Option.some (VisitRecord.hash (.ofInt 9)) := by
  refine ⟨⟨by decide, by decide, ?_⟩, by decide, ?_⟩
  · intro hcontra
    rcases (discriminants_distinct_except_rule4_rule6).1 WalkRule.codeObject
        WalkRule.functionObject (by decide) hcontra (by decide) with ⟨h, _⟩ | ⟨h, _⟩ <;>
      exact WalkRule.noConfusion h
  · exact (discriminants_distinct_except_rule4_rule6).2 extNull
      (.ofPy (.pyTuple .nil)) 9 (by decide)

/-! ### Code objects: claim C5 -/

/-- C5 counterexample: the code-object rule reference-walks FIVE
name/constant tables — constants, names, variable names, free variables,
cell variables — not four as the claim counts them: the rule's table list
has length five, and at a concrete code object all five contribute a block
to the record. -/
theorem code_object_tables_five_not_four :
    (codeTables (OptPy.some (.pyTuple (.cons (.pyStr "c1".data) .nil)))
        (OptPy.some (.pyTuple (.cons (.pyStr "c2".data) .nil)))
        (OptPy.some (.pyTuple (.cons (.pyStr "c3".data) .nil)))
        (OptPy.some (.pyTuple (.cons (.pyStr "c4".data) .nil)))
        (OptPy.some (.pyTuple (.cons (.pyStr "c5".data) .nil)))).length ≠ 4
      ∧ recordWalk extNull (.ofPy (.pyCode 1 2 3 4 5 6 "bc".data
          (OptPy.some (.pyTuple (.cons (.pyStr "c1".data) .nil)))
          (OptPy.some (.pyTuple (.cons (.pyStr "c2".data) .nil)))
          (OptPy.some (.pyTuple (.cons (.pyStr "c3".data) .nil)))
          (OptPy.some (.pyTuple (.cons (.pyStr "c4".data) .nil)))
          (OptPy.some (.pyTuple (.cons (.pyStr "c5".data) .nil)))
          (.pyStr "f".data) (.pyBytes "lt".data) "file.py".data))
        = [VisitRecord.hash (.ofInt 4), .hash (.ofInt 1), .hash (.ofInt 2),
            .hash (.ofInt 3), .hash (.ofInt 4), .hash (.ofInt 6),
            .hash (.sha1Of "bc".data),
            .hash (.ofInt 1), .topo (.ofPy (.pyStr "c1".data)),
            .hash (.ofInt 1), .topo (.ofPy (.pyStr "c2".data)),
            .hash (.ofInt 1), .topo (.ofPy (.pyStr "c3".data)),
            .hash (.ofInt 1), .topo (.ofPy (.pyStr "c4".data)),
            .hash (.ofInt 1), .topo (.ofPy (.pyStr "c5".data)),
            .topo (.ofPy (.pyStr "f".data)), .topo (.ofPy (.pyBytes "lt".data))] := by
  exact ⟨by decide, by decide⟩

/-- C5 amended: for every code-object node the walker emits its
discriminant, then hash contributions for the argument count, keyword-only
argument count, local-variable slot count, required stack size, first line
number, and a content hash of the raw instruction bytes; then
reference-walks FIVE name/constant tables (constants, names, variable
names, free variables, cell variables) as ordered sequences; then
references the bare name and the line-number table.  The flags field `fl`
and the source file path `fn` appear nowhere on the right-hand side: they
contribute nothing to the record. -/
theorem code_object_record_shape (ext : Ext)
    (a k nl stk fl fln : Int) (bytes : Str) (c1 c2 c3 c4 c5 : OptPy)
    (nm lt : PyObj) (fn : Str) :
    recordWalk ext (.ofPy (.pyCode a k nl stk fl fln bytes c1 c2 c3 c4 c5 nm lt fn))
      = [VisitRecord.hash (.ofInt 4), .hash (.ofInt a), .hash (.ofInt k),
          .hash (.ofInt nl), .hash (.ofInt stk), .hash (.ofInt fln),
          .hash (.sha1Of bytes)]
        ++ ((codeTables c1 c2 c3 c4 c5).map visitTupleRecords).flatten
        ++ [VisitRecord.topo (.ofPy nm), VisitRecord.topo (.ofPy lt)] := by
  rw [recordWalk_code]
  simp [codeTables, List.append_assoc]

/-! ### Function shapes: claims C6 and C9 -/

/-- C6 counterexample: a dict-shaped value is decomposed as a mapping when
it sits in the keyword-only-defaults slot, but the same dict in the
positional-defaults slot goes through the tuple path (`visitTuple`), which
folds the C-level size probe (−1) and never visits the entries: the claim
that both annotations and defaults support both shapes is false for the
positional defaults. -/
theorem defaults_dict_not_decomposed :
    (VisitRecord.namedTopo "a".data (.ofPy (.pyInt 1)))
        ∈ recordWalk extNull (.ofPy (.pyFunc OptPy.none .pyNone .pyNone
            OptPy.none OptPy.none
            (OptPy.some (.pyDict (.cons (.pyStr "a".data) (.pyInt 1) .nil)))
            OptPy.none .nil))
      ∧ (VisitRecord.namedTopo "a".data (.ofPy (.pyInt 1)))
          ∉ recordWalk extNull (.ofPy (.pyFunc OptPy.none .pyNone .pyNone
              OptPy.none
              (OptPy.some (.pyDict (.cons (.pyStr "a".data) (.pyInt 1) .nil)))
              OptPy.none OptPy.none .nil))
      ∧ visitTupleRecords (Option.some (.pyDict (.cons (.pyStr "a".data) (.pyInt 1) .nil)))
          = [VisitRecord.hash (.ofInt (-1))]
      ∧ visitDictRecords (Option.some (.pyDict (.cons (.pyStr "a".data) (.pyInt 1) .nil))) false
          = [VisitRecord.hash (.ofInt 1),
              VisitRecord.namedTopo "a".data (.ofPy (.pyInt 1))] := by
  exact ⟨by decide, by decide, by decide, by decide⟩

/-- C6 amended: the walker supports both shapes — ordered sequence (tuple)
or name-to-value mapping (dict) — for a function's annotations and for its
keyword-only defaults, decomposing whichever shape is present, and folds in
a zero marker when the attribute is absent; the positional defaults are
decomposed through the tuple path only. -/
theorem func_annotations_defaults_shapes (ext : Ext) (clo : OptPy) (nm code : PyObj)
    (ann dfl kwd gl : OptPy) (fattrs : PyAttrs)
    (hs : isPyObjectGloballyIdentifiableAndStable ext.reg
      (.pyFunc clo nm code ann dfl kwd gl fattrs) = false) :
    (recordWalk ext (.ofPy (.pyFunc clo nm code ann dfl kwd gl fattrs))
        = VisitRecord.hash (.ofInt 5)
          :: (closureRecords clo
            ++ [VisitRecord.topo (.ofPy nm), VisitRecord.topo (.ofPy code)]
            ++ visitDictOrTupleRecords ann.toOption
            ++ visitTupleRecords dfl.toOption
            ++ visitDictOrTupleRecords kwd.toOption
            ++ [VisitRecord.hash (.ofInt 1)]
            ++ globalsRecords ext code gl
            ++ [VisitRecord.hash (.ofInt 0)]))
      ∧ (∀ entries : PyPairs,
        visitDictOrTupleRecords (Option.some (.pyDict entries))
          = visitDictRecords (Option.some (.pyDict entries)) false)
      ∧ (∀ items : PyObjs,
        visitDictOrTupleRecords (Option.some (.pyTuple items))
          = visitTupleRecords (Option.some (.pyTuple items)))
      ∧ visitDictOrTupleRecords Option.none = [VisitRecord.hash (.ofInt 0)]
      ∧ visitTupleRecords Option.none = [VisitRecord.hash (.ofInt 0)] := by
  refine ⟨recordWalk_func ext clo nm code ann dfl kwd gl fattrs hs, ?_, ?_, rfl, rfl⟩
  · intro entries
    rfl
  · intro items
    rfl

/-- Witness for C6 amended at a concrete function: dict-shaped annotations
and absent defaults. -/
theorem func_annotations_defaults_shapes_witness :
    isPyObjectGloballyIdentifiableAndStable extNull.reg
        (.pyFunc OptPy.none .pyNone .pyNone
          (OptPy.some (.pyDict (.cons (.pyStr "r".data) (.pyInt 2) .nil)))
          OptPy.none OptPy.none OptPy.none .nil) = false
      ∧ recordWalk extNull (.ofPy (.pyFunc OptPy.none .pyNone .pyNone
            (OptPy.some (.pyDict (.cons (.pyStr "r".data) (.pyInt 2) .nil)))
            OptPy.none OptPy.none OptPy.none .nil))
          = VisitRecord.hash (.ofInt 5)
            :: (closureRecords OptPy.none
              ++ [VisitRecord.topo (.ofPy .pyNone), VisitRecord.topo (.ofPy .pyNone)]
              ++ visitDictOrTupleRecords (Option.some
                  (.pyDict (.cons (.pyStr "r".data) (.pyInt 2) .nil)))
              ++ visitTupleRecords Option.none
              ++ visitDictOrTupleRecords Option.none
              ++ [VisitRecord.hash (.ofInt 1)]
              ++ globalsRecords extNull .pyNone OptPy.none
              ++ [VisitRecord.hash (.ofInt 0)]) := by
  refine ⟨by decide, ?_⟩
  exact (func_annotations_defaults_shapes extNull OptPy.none .pyNone .pyNone
    (OptPy.some (.pyDict (.cons (.pyStr "r".data) (.pyInt 2) .nil)))
    OptPy.none OptPy.none OptPy.none .nil (by decide)).1

/-- C9: for a function whose closure tuple is non-null, the walker folds in
the FULL length of the closure tuple, then emits node references only for
the items that are closure cells; non-cell items are counted in the folded
length but never referenced, and no error entry is recorded for them. -/
theorem closure_folds_length_visits_cells_only (ext : Ext) (items : PyObjs)
    (nm code : PyObj) (ann dfl kwd gl : OptPy) (fattrs : PyAttrs)
    (hs : isPyObjectGloballyIdentifiableAndStable ext.reg
      (.pyFunc (OptPy.some (.pyTuple items)) nm code ann dfl kwd gl fattrs) = false) :
    (recordWalk ext (.ofPy (.pyFunc (OptPy.some (.pyTuple items)) nm code ann dfl kwd gl fattrs))
        = VisitRecord.hash (.ofInt 5)
          :: ((VisitRecord.hash (.ofInt (items.toList.length : Int))
              :: (items.toList.filter isCellObj).map (fun c => VisitRecord.topo (.ofPy c)))
            ++ [VisitRecord.topo (.ofPy nm), VisitRecord.topo (.ofPy code)]
            ++ visitDictOrTupleRecords ann.toOption
            ++ visitTupleRecords dfl.toOption
            ++ visitDictOrTupleRecords kwd.toOption
            ++ [VisitRecord.hash (.ofInt 1)]
            ++ globalsRecords ext code gl
            ++ [VisitRecord.hash (.ofInt 0)]))
      ∧ (∀ o ∈ items.toList, isCellObj o = false
          → VisitRecord.topo (.ofPy o)
              ∉ (items.toList.filter isCellObj).map (fun c => VisitRecord.topo (.ofPy c)))
      ∧ (∀ msg, VisitRecord.err msg
          ∉ closureRecords (OptPy.some (.pyTuple items))) := by
  refine ⟨?_, ?_, ?_⟩
  · rw [recordWalk_func ext _ nm code ann dfl kwd gl fattrs hs]
    simp [closureRecords, pyTupleSizeC, tupleItems]
  · intro o ho hnc hmem
    simp only [List.mem_map] at hmem
    obtain ⟨c, hc, heq⟩ := hmem
    have : c = o := by
      injection heq with h1
      injection h1
    subst this
    rw [List.mem_filter] at hc
    rw [hc.2] at hnc
    exact Bool.noConfusion hnc
  · intro msg hmem
    simp [closureRecords, List.mem_map] at hmem

/-- Witness for C9: a concrete closure holding one cell and one non-cell:
the length folded is 2, only the cell is referenced, no error entry. -/
theorem closure_folds_length_visits_cells_only_witness :
    isPyObjectGloballyIdentifiableAndStable extNull.reg
        (.pyFunc (OptPy.some (.pyTuple (.cons (.pyCell (OptPy.some .pyTrue))
            (.cons (.pyInt 7) .nil)))) .pyNone .pyNone
          OptPy.none OptPy.none OptPy.none OptPy.none .nil) = false
      ∧ recordWalk extNull (.ofPy (.pyFunc
            (OptPy.some (.pyTuple (.cons (.pyCell (OptPy.some .pyTrue))
              (.cons (.pyInt 7) .nil)))) .pyNone .pyNone
            OptPy.none OptPy.none OptPy.none OptPy.none .nil))
          = [VisitRecord.hash (.ofInt 5), .hash (.ofInt 2),
              .topo (.ofPy (.pyCell (OptPy.some .pyTrue))),
              .topo (.ofPy .pyNone), .topo (.ofPy .pyNone),
              .hash (.ofInt 0), .hash (.ofInt 0), .hash (.ofInt 0),
              .hash (.ofInt 1), .hash (.ofInt 0)]
      ∧ VisitRecord.topo (.ofPy (.pyInt 7))
          ∉ recordWalk extNull (.ofPy (.pyFunc
              (OptPy.some (.pyTuple (.cons (.pyCell (OptPy.some .pyTrue))
                (.cons (.pyInt 7) .nil)))) .pyNone .pyNone
              OptPy.none OptPy.none OptPy.none OptPy.none .nil)) := by
  refine ⟨by decide, ?_, by decide⟩
  have h := (closure_folds_length_visits_cells_only extNull
    (.cons (.pyCell (OptPy.some .pyTrue)) (.cons (.pyInt 7) .nil))
    .pyNone .pyNone OptPy.none OptPy.none OptPy.none OptPy.none .nil (by decide)).1
  rw [h]
  decide

/-! ### Round-trip failure handling: claim C7 -/

theorem identifiable_implies_roundtrip (reg : Registry) (h : PyObj)
    (hid : isPyObjectGloballyIdentifiable reg h = true) :
    roundTripResolves reg h := by
  unfold isPyObjectGloballyIdentifiable at hid
  split at hid
  · rename_i hguard
    split at hid
    · exact absurd hid (by simp)
    · rename_i moduleName hm
      split at hid
      · exact absurd hid (by simp)
      · rename_i clsName hn
        split at hid
        · exact absurd hid (by simp)
        · rename_i huni
          simp only [Bool.or_eq_true, Bool.not_eq_true'] at huni
          push_neg at huni
          obtain ⟨hu1, hu2⟩ := huni
          split at hid
          · exact absurd hid (by simp)
          · rename_i moduleObject hr
            split at hid
            · exact absurd hid (by simp)
            · rename_i obj ha
              have hobj : obj = h := of_decide_eq_true hid
              subst hobj
              cases moduleName with
              | pyStr ms =>
                cases clsName with
                | pyStr cs =>
                  exact ⟨ms, cs, moduleObject, hm, hn,
                    by simpa [unicodeAsUTF8] using hr,
                    by simpa [unicodeAsUTF8] using ha⟩
                | _ => simp [isUnicodeObj] at hu2
              | _ => simp [isUnicodeObj] at hu1
  · exact absurd hid (by simp)

theorem not_stable_classify_ne (reg : Registry) (o : PyObj)
    (hst : isPyObjectGloballyIdentifiableAndStable reg o = false) :
    classify reg (.ofPy o) ≠ WalkRule.globallyStableObject := by
  intro hcl
  simp only [classify] at hcl
  split_ifs at hcl <;>
    first
      | exact WalkRule.noConfusion hcl
      | (cases o <;> simp_all)

/-- C7: whenever the globally-addressable round-trip check fails — a
needed attribute is missing or non-string, the module-registry lookup
fails, the attribute lookup on the resolved module fails, or the resolved
object is not the identical node — the node is classified NOT globally
addressable, hence also not globally addressable-and-stable, and the
walker's dispatch never selects the globally-stable rule for it (it falls
through to the structural rules).  No exception escapes: the model
functions are total, mirroring the C code's `PyErr_Clear()` on every
failing branch. -/
theorem roundtrip_failure_walks_structurally (reg : Registry) (h : PyObj)
    (hfail : ¬roundTripResolves reg h) :
    isPyObjectGloballyIdentifiable reg h = false
      ∧ isPyObjectGloballyIdentifiableAndStable reg h = false
      ∧ classify reg (.ofPy h) ≠ WalkRule.globallyStableObject := by
  have hid : isPyObjectGloballyIdentifiable reg h = false := by
    rcases hres : isPyObjectGloballyIdentifiable reg h with _ | _
    · rfl
    · exact absurd (identifiable_implies_roundtrip reg h hres) hfail
  have hst : isPyObjectGloballyIdentifiableAndStable reg h = false := by
    unfold isPyObjectGloballyIdentifiableAndStable
    simp [hid]
  exact ⟨hid, hst, not_stable_classify_ne reg h hst⟩

/-- Witness for C7: a built-in function carrying no attributes fails the
round trip in the empty registry and is walked structurally. -/
theorem roundtrip_failure_walks_structurally_witness :
    ¬roundTripResolves [] (.pyCFunction .nil)
      ∧ (isPyObjectGloballyIdentifiable [] (.pyCFunction .nil) = false
        ∧ isPyObjectGloballyIdentifiableAndStable [] (.pyCFunction .nil) = false
        ∧ classify [] (.ofPy (.pyCFunction .nil)) ≠ WalkRule.globallyStableObject) := by
  have hfail : ¬roundTripResolves [] (.pyCFunction .nil) := by
    rintro ⟨ms, cs, M, hm, _, _, _⟩
    simp [getAttrString, attrLookup, PyAttrs.toList] at hm
  exact ⟨hfail, roundtrip_failure_walks_structurally [] (.pyCFunction .nil) hfail⟩

end ObjWalker
